import Mathlib

/-
Shallow embedding of `src/lib/llvm-backend/src/intrinsics.rs` from the
wasmer LLVM backend.

The source file has two components:
  * `Intrinsics::declare` registers every external LLVM symbol the generated
    code may call (numeric primitives, a branch hint, a trap, and the
    `vm.memory.*` runtime entry points) and builds the fixed set of LLVM
    type handles, including the execution-context struct type.
  * `CtxType` is a per-function accessor that lazily materializes and
    memoizes the LLVM instruction sequences needed to reach a memory, a
    table, a global, a signature index, or an imported function through the
    context pointer.

The inkwell builder is modelled as explicit state: a counter of SSA value
ids plus the list of emitted instructions.  LLVM values carry their LLVM
type, as inkwell values do.  The `into_pointer_value` / `into_int_value`
conversions panic in Rust when the value has the wrong kind; they are
modelled as `Option`-returning, and every operation that can panic returns
`Option` (a `none` result models a panic).
-/

set_option autoImplicit false

namespace WasmerLLVM

/-- LLVM types used by the source file.  Struct types are named rather than
structural: `ctxStruct` is the opaque "ctx" struct whose body is set in
`Intrinsics::declare`, `localMemoryStruct` is the `{ i8*, i64, i8* }`
descriptor used for both memories and tables, `importedFuncStruct` is
`{ i8*, ctx* }`, and `anyfuncStruct` is `{ i8*, ctx*, i32 }`.  Field types
are given by `structFields` below. -/
inductive LLVMTy where
  | void
  | i1
  | i8
  | i16
  | i32
  | i64
  | f32
  | f64
  | ptr (pointee : LLVMTy)
  | ctxStruct
  | localMemoryStruct
  | importedFuncStruct
  | anyfuncStruct
  deriving DecidableEq

/-- Field types of the named struct types, in declaration order.  The body
of the context struct mirrors `ctx_ty.set_body` in the source: fields 0-2
are the local memory/table/global array pointers, fields 3-5 the imported
ones, field 6 the imported-function array pointer, field 7 the signature
id array pointer. -/
def structFields : LLVMTy → List LLVMTy
  | LLVMTy.ctxStruct =>
      [LLVMTy.ptr (LLVMTy.ptr LLVMTy.localMemoryStruct),
       LLVMTy.ptr (LLVMTy.ptr LLVMTy.localMemoryStruct),
       LLVMTy.ptr (LLVMTy.ptr LLVMTy.i64),
       LLVMTy.ptr (LLVMTy.ptr LLVMTy.localMemoryStruct),
       LLVMTy.ptr (LLVMTy.ptr LLVMTy.localMemoryStruct),
       LLVMTy.ptr (LLVMTy.ptr LLVMTy.i64),
       LLVMTy.ptr (LLVMTy.ptr LLVMTy.importedFuncStruct),
       LLVMTy.ptr LLVMTy.i32]
  | LLVMTy.localMemoryStruct =>
      [LLVMTy.ptr LLVMTy.i8, LLVMTy.i64, LLVMTy.ptr LLVMTy.i8]
  | LLVMTy.importedFuncStruct =>
      [LLVMTy.ptr LLVMTy.i8, LLVMTy.ptr LLVMTy.ctxStruct]
  | LLVMTy.anyfuncStruct =>
      [LLVMTy.ptr LLVMTy.i8, LLVMTy.ptr LLVMTy.ctxStruct, LLVMTy.i32]
  | _ => []

/-- Pointee type of a pointer type (identity on non-pointers, which never
arises in the translated code paths). -/
def pointee : LLVMTy → LLVMTy
  | LLVMTy.ptr t => t
  | t => t

/-- Type of field `n` of a struct type. -/
def fieldTy (t : LLVMTy) (n : Nat) : LLVMTy :=
  (structFields t).getD n LLVMTy.void

/-- The kind of an LLVM value: an SSA instruction result (identified by the
id assigned at emission), an integer constant, a float constant, or a
function parameter. -/
inductive ValueKind where
  | ssa (id : Nat)
  | constInt (v : Nat)
  | constFloat (bits : Nat)
  | param (fn : Nat) (n : Nat)
  deriving DecidableEq

/-- An LLVM value: its kind together with its LLVM type (inkwell values
know their own type). -/
structure Value where
  kind : ValueKind
  ty : LLVMTy
  deriving DecidableEq

/-- Instructions emitted through the builder.  Each records its operands
and the SSA id of its result, so theorems can speak about which pointer a
load went through. -/
inductive Instr where
  | structGep (base : Value) (fieldIdx : Nat) (nm : String) (result : Nat)
  | load (ptrOp : Value) (nm : String) (result : Nat)
  | gep (base : Value) (idx : Value) (nm : String) (result : Nat)
  | ptrToInt (op : Value) (ty : LLVMTy) (nm : String) (result : Nat)
  | intToPtr (op : Value) (ty : LLVMTy) (nm : String) (result : Nat)
  | call (callee : String) (args : List Value) (nm : String) (result : Nat)
  deriving DecidableEq

/-- The builder state: next SSA id and the instructions emitted so far, in
emission order. -/
structure BuilderState where
  nextId : Nat
  instrs : List Instr
  deriving DecidableEq

/-- Emit one instruction, returning its result value (with the given type)
and the new builder state. -/
def BuilderState.emit (b : BuilderState) (mk : Nat → Instr) (ty : LLVMTy) :
    Value × BuilderState :=
  (⟨ValueKind.ssa b.nextId, ty⟩, ⟨b.nextId + 1, b.instrs ++ [mk b.nextId]⟩)

/-- `builder.build_struct_gep(base, n, nm)`: pointer to field `n` of the
struct `base` points to. -/
def buildStructGep (b : BuilderState) (base : Value) (n : Nat) (nm : String) :
    Value × BuilderState :=
  b.emit (Instr.structGep base n nm) (LLVMTy.ptr (fieldTy (pointee base.ty) n))

/-- `builder.build_load(p, nm)`: the result has the pointee type. -/
def buildLoad (b : BuilderState) (p : Value) (nm : String) :
    Value × BuilderState :=
  b.emit (Instr.load p nm) (pointee p.ty)

/-- `builder.build_in_bounds_gep(base, &[idx], nm)`: same pointer type as
`base`. -/
def buildInBoundsGep (b : BuilderState) (base : Value) (idx : Value) (nm : String) :
    Value × BuilderState :=
  b.emit (Instr.gep base idx nm) base.ty

/-- `builder.build_ptr_to_int(v, ty, nm)`. -/
def buildPtrToInt (b : BuilderState) (v : Value) (ty : LLVMTy) (nm : String) :
    Value × BuilderState :=
  b.emit (Instr.ptrToInt v ty nm) ty

/-- `builder.build_int_to_ptr(v, ty, nm)`. -/
def buildIntToPtr (b : BuilderState) (v : Value) (ty : LLVMTy) (nm : String) :
    Value × BuilderState :=
  b.emit (Instr.intToPtr v ty nm) ty

/-- `builder.build_call(f, args, nm)` (result type is unused here). -/
def buildCall (b : BuilderState) (callee : String) (args : List Value) (nm : String) :
    Value × BuilderState :=
  b.emit (Instr.call callee args nm) LLVMTy.void

/-- `ty.const_int(v, false)`: integer constants are interned, they emit no
instruction. -/
def constIntVal (ty : LLVMTy) (v : Nat) : Value :=
  ⟨ValueKind.constInt v, ty⟩

/-- `ty.const_float(v)`. -/
def constFloatVal (ty : LLVMTy) (bits : Nat) : Value :=
  ⟨ValueKind.constFloat bits, ty⟩

/-- Is this an LLVM integer type (the kinds an inkwell `IntValue` can
have)? -/
def isIntTy : LLVMTy → Bool
  | LLVMTy.i1 => true
  | LLVMTy.i8 => true
  | LLVMTy.i16 => true
  | LLVMTy.i32 => true
  | LLVMTy.i64 => true
  | _ => false

/-- Is this an LLVM pointer type? -/
def isPtrTy : LLVMTy → Bool
  | LLVMTy.ptr _ => true
  | _ => false

/-- `BasicValueEnum::into_pointer_value`: panics (here `none`) unless the
value is a pointer. -/
def intoPointerValue (v : Value) : Option Value :=
  if isPtrTy v.ty then some v else none

/-- `BasicValueEnum::into_int_value`: panics (here `none`) unless the value
is an integer. -/
def intoIntValue (v : Value) : Option Value :=
  if isIntTy v.ty then some v else none

/-- A function symbol registered in the LLVM module: name, return type and
parameter types (`fn_type` applied at an `add_function` call). -/
structure FnDecl where
  name : String
  ret : LLVMTy
  params : List LLVMTy
  deriving DecidableEq

/-- The compilation unit, as the ordered list of function symbols
registered into it. -/
def LLVMModule := List FnDecl

instance : DecidableEq LLVMModule := inferInstanceAs (DecidableEq (List FnDecl))

/-- `module.add_function(name, ty, None)`: registers the symbol and returns
its handle. -/
def addFunction (m : LLVMModule) (nm : String) (ret : LLVMTy) (ps : List LLVMTy) :
    FnDecl × LLVMModule :=
  let d : FnDecl := ⟨nm, ret, ps⟩
  (d, List.append m [d])

/-- `MemoryType` from `wasmer_runtime_core::memory`: the physical
discipline of a linear memory.  `Dynamic` memories may relocate on growth,
`Static` and `SharedStatic` memories have a stable base address. -/
inductive MemoryType where
  | Dynamic
  | Static
  | SharedStatic
  deriving DecidableEq

/-- `Type` from `wasmer_runtime_core::types`: a wasm value type. -/
inductive WasmType where
  | I32
  | I64
  | F32
  | F64
  deriving DecidableEq

/-- A global's descriptor: declared mutability and value type (the
`desc.mutable` / `desc.ty` fields read by `global_cache`). -/
structure GlobalDesc where
  mutable : Bool
  ty : WasmType
  deriving DecidableEq

/-- The slice of `ModuleInfo` that this source file reads: the declared
memory types for local and imported memories, the table counts, and the
global descriptors for local and imported globals. -/
structure ModuleInfo where
  memories : List MemoryType
  imported_memories : List MemoryType
  tables : Nat
  imported_tables : Nat
  globals : List GlobalDesc
  imported_globals : List GlobalDesc
  deriving DecidableEq

/-- Result of resolving a unified index into its index space: a sub-index
into the local space or into the imported space. -/
inductive LocalOrImport where
  | Local (i : Nat)
  | Import (i : Nat)
  deriving DecidableEq

/-- Modelled from the spec: `LocalOrImport::local_or_import` lives in
`wasmer_runtime_core::types`, which is not part of this excerpt.  The spec
says each entity kind has two disjoint numbering spaces, local and
imported, unified behind a single logical index, and that this resolution
is pure and deterministic.  Following the WebAssembly convention the
imported entities occupy the low indices of the unified space. -/
def resolveIndex (importedCount : Nat) (idx : Nat) : LocalOrImport :=
  if idx < importedCount then LocalOrImport.Import idx
  else LocalOrImport.Local (idx - importedCount)

/-- `index.local_or_import(info)` for a `MemoryIndex`. -/
def memLocalOrImport (info : ModuleInfo) (idx : Nat) : LocalOrImport :=
  resolveIndex info.imported_memories.length idx

/-- `index.local_or_import(info)` for a `TableIndex`. -/
def tableLocalOrImport (info : ModuleInfo) (idx : Nat) : LocalOrImport :=
  resolveIndex info.imported_tables idx

/-- `index.local_or_import(info)` for a `GlobalIndex`. -/
def globalLocalOrImport (info : ModuleInfo) (idx : Nat) : LocalOrImport :=
  resolveIndex info.imported_globals.length idx

/-- The declared memory type of the memory a unified index denotes
(`info.memories[...].memory_type()` or
`info.imported_memories[...].1.memory_type()`; `none` models the panic on
an out-of-range index). -/
def declaredMemTy (info : ModuleInfo) (idx : Nat) : Option MemoryType :=
  match memLocalOrImport info idx with
  | LocalOrImport.Local l => info.memories[l]?
  | LocalOrImport.Import l => info.imported_memories[l]?

/-- The declared descriptor of the global a unified index denotes. -/
def declaredGlobalDesc (info : ModuleInfo) (idx : Nat) : Option GlobalDesc :=
  match globalLocalOrImport info idx with
  | LocalOrImport.Local l => info.globals[l]?
  | LocalOrImport.Import l => info.imported_globals[l]?

/-- The `Intrinsics` struct of the source: handles for every declared
function symbol, the fixed type handles, and the zero constants. -/
structure Intrinsics where
  ctlz_i32 : FnDecl
  ctlz_i64 : FnDecl
  cttz_i32 : FnDecl
  cttz_i64 : FnDecl
  ctpop_i32 : FnDecl
  ctpop_i64 : FnDecl
  sqrt_f32 : FnDecl
  sqrt_f64 : FnDecl
  minimum_f32 : FnDecl
  minimum_f64 : FnDecl
  maximum_f32 : FnDecl
  maximum_f64 : FnDecl
  ceil_f32 : FnDecl
  ceil_f64 : FnDecl
  floor_f32 : FnDecl
  floor_f64 : FnDecl
  trunc_f32 : FnDecl
  trunc_f64 : FnDecl
  nearbyint_f32 : FnDecl
  nearbyint_f64 : FnDecl
  fabs_f32 : FnDecl
  fabs_f64 : FnDecl
  copysign_f32 : FnDecl
  copysign_f64 : FnDecl
  expect_i1 : FnDecl
  trap : FnDecl
  void_ty : LLVMTy
  i1_ty : LLVMTy
  i8_ty : LLVMTy
  i16_ty : LLVMTy
  i32_ty : LLVMTy
  i64_ty : LLVMTy
  f32_ty : LLVMTy
  f64_ty : LLVMTy
  i8_ptr_ty : LLVMTy
  i16_ptr_ty : LLVMTy
  i32_ptr_ty : LLVMTy
  i64_ptr_ty : LLVMTy
  f32_ptr_ty : LLVMTy
  f64_ptr_ty : LLVMTy
  anyfunc_ty : LLVMTy
  i1_zero : Value
  i32_zero : Value
  i64_zero : Value
  f32_zero : Value
  f64_zero : Value
  memory_grow_dynamic_local : FnDecl
  memory_grow_static_local : FnDecl
  memory_grow_shared_local : FnDecl
  memory_grow_dynamic_import : FnDecl
  memory_grow_static_import : FnDecl
  memory_grow_shared_import : FnDecl
  memory_size_dynamic_local : FnDecl
  memory_size_static_local : FnDecl
  memory_size_shared_local : FnDecl
  memory_size_dynamic_import : FnDecl
  memory_size_static_import : FnDecl
  memory_size_shared_import : FnDecl
  ctx_ty : LLVMTy
  ctx_ptr_ty : LLVMTy
  deriving DecidableEq

/-- `Intrinsics::declare(module, context)`: registers every intrinsic
symbol into the module, in the evaluation order of the Rust struct literal,
and returns the handle table together with the extended module. -/
def Intrinsics.declare (module : LLVMModule) : Intrinsics × LLVMModule :=
  let void_ty := LLVMTy.void
  let i1_ty := LLVMTy.i1
  let i8_ty := LLVMTy.i8
  let i16_ty := LLVMTy.i16
  let i32_ty := LLVMTy.i32
  let i64_ty := LLVMTy.i64
  let f32_ty := LLVMTy.f32
  let f64_ty := LLVMTy.f64
  let i8_ptr_ty := LLVMTy.ptr i8_ty
  let i16_ptr_ty := LLVMTy.ptr i16_ty
  let i32_ptr_ty := LLVMTy.ptr i32_ty
  let i64_ptr_ty := LLVMTy.ptr i64_ty
  let f32_ptr_ty := LLVMTy.ptr f32_ty
  let f64_ptr_ty := LLVMTy.ptr f64_ty
  let i1_zero := constIntVal i1_ty 0
  let i32_zero := constIntVal i32_ty 0
  let i64_zero := constIntVal i64_ty 0
  let f32_zero := constFloatVal f32_ty 0
  let f64_zero := constFloatVal f64_ty 0
  let ctx_ty := LLVMTy.ctxStruct
  let ctx_ptr_ty := LLVMTy.ptr ctx_ty
  let anyfunc_ty := LLVMTy.anyfuncStruct
  let (ctlz_i32, m1) := addFunction module "llvm.ctlz.i32" i32_ty [i32_ty, i1_ty]
  let (ctlz_i64, m2) := addFunction m1 "llvm.ctlz.i64" i64_ty [i64_ty, i1_ty]
  let (cttz_i32, m3) := addFunction m2 "llvm.cttz.i32" i32_ty [i32_ty, i1_ty]
  let (cttz_i64, m4) := addFunction m3 "llvm.cttz.i64" i64_ty [i64_ty, i1_ty]
  let (ctpop_i32, m5) := addFunction m4 "llvm.ctpop.i32" i32_ty [i32_ty]
  let (ctpop_i64, m6) := addFunction m5 "llvm.ctpop.i64" i64_ty [i64_ty]
  let (sqrt_f32, m7) := addFunction m6 "llvm.sqrt.f32" f32_ty [f32_ty]
  let (sqrt_f64, m8) := addFunction m7 "llvm.sqrt.f64" f64_ty [f64_ty]
  let (minimum_f32, m9) := addFunction m8 "llvm.minnum.f32" f32_ty [f32_ty, f32_ty]
  let (minimum_f64, m10) := addFunction m9 "llvm.minnum.f64" f64_ty [f64_ty, f64_ty]
  let (maximum_f32, m11) := addFunction m10 "llvm.maxnum.f32" f32_ty [f32_ty, f32_ty]
  let (maximum_f64, m12) := addFunction m11 "llvm.maxnum.f64" f64_ty [f64_ty, f64_ty]
  let (ceil_f32, m13) := addFunction m12 "llvm.ceil.f32" f32_ty [f32_ty]
  let (ceil_f64, m14) := addFunction m13 "llvm.ceil.f64" f64_ty [f64_ty]
  let (floor_f32, m15) := addFunction m14 "llvm.floor.f32" f32_ty [f32_ty]
  let (floor_f64, m16) := addFunction m15 "llvm.floor.f64" f64_ty [f64_ty]
  let (trunc_f32, m17) := addFunction m16 "llvm.trunc.f32" f32_ty [f32_ty]
  let (trunc_f64, m18) := addFunction m17 "llvm.trunc.f64" f64_ty [f64_ty]
  let (nearbyint_f32, m19) := addFunction m18 "llvm.nearbyint.f32" f32_ty [f32_ty]
  let (nearbyint_f64, m20) := addFunction m19 "llvm.nearbyint.f64" f64_ty [f64_ty]
  let (fabs_f32, m21) := addFunction m20 "llvm.fabs.f32" f32_ty [f32_ty]
  let (fabs_f64, m22) := addFunction m21 "llvm.fabs.f64" f64_ty [f64_ty]
  let (copysign_f32, m23) := addFunction m22 "llvm.copysign.f32" f32_ty [f32_ty, f32_ty]
  let (copysign_f64, m24) := addFunction m23 "llvm.copysign.f64" f64_ty [f64_ty, f64_ty]
  let (expect_i1, m25) := addFunction m24 "llvm.expect.i1" i1_ty [i1_ty, i1_ty]
  let (trap, m26) := addFunction m25 "llvm.trap" void_ty []
  let (memory_grow_dynamic_local, m27) :=
    addFunction m26 "vm.memory.grow.dynamic.local" i32_ty [ctx_ptr_ty, i32_ty, i32_ty]
  let (memory_grow_static_local, m28) :=
    addFunction m27 "vm.memory.grow.static.local" i32_ty [ctx_ptr_ty, i32_ty, i32_ty]
  let (memory_grow_shared_local, m29) :=
    addFunction m28 "vm.memory.grow.shared.local" i32_ty [ctx_ptr_ty, i32_ty, i32_ty]
  let (memory_grow_dynamic_import, m30) :=
    addFunction m29 "vm.memory.grow.dynamic.import" i32_ty [ctx_ptr_ty, i32_ty, i32_ty]
  let (memory_grow_static_import, m31) :=
    addFunction m30 "vm.memory.grow.static.import" i32_ty [ctx_ptr_ty, i32_ty, i32_ty]
  let (memory_grow_shared_import, m32) :=
    addFunction m31 "vm.memory.grow.shared.import" i32_ty [ctx_ptr_ty, i32_ty, i32_ty]
  let (memory_size_dynamic_local, m33) :=
    addFunction m32 "vm.memory.size.dynamic.local" i32_ty [ctx_ptr_ty, i32_ty]
  let (memory_size_static_local, m34) :=
    addFunction m33 "vm.memory.size.static.local" i32_ty [ctx_ptr_ty, i32_ty]
  let (memory_size_shared_local, m35) :=
    addFunction m34 "vm.memory.size.shared.local" i32_ty [ctx_ptr_ty, i32_ty]
  let (memory_size_dynamic_import, m36) :=
    addFunction m35 "vm.memory.size.dynamic.import" i32_ty [ctx_ptr_ty, i32_ty]
  let (memory_size_static_import, m37) :=
    addFunction m36 "vm.memory.size.static.import" i32_ty [ctx_ptr_ty, i32_ty]
  let (memory_size_shared_import, m38) :=
    addFunction m37 "vm.memory.size.shared.import" i32_ty [ctx_ptr_ty, i32_ty]
  (⟨ctlz_i32, ctlz_i64, cttz_i32, cttz_i64, ctpop_i32, ctpop_i64,
    sqrt_f32, sqrt_f64, minimum_f32, minimum_f64, maximum_f32, maximum_f64,
    ceil_f32, ceil_f64, floor_f32, floor_f64, trunc_f32, trunc_f64,
    nearbyint_f32, nearbyint_f64, fabs_f32, fabs_f64, copysign_f32, copysign_f64,
    expect_i1, trap,
    void_ty, i1_ty, i8_ty, i16_ty, i32_ty, i64_ty, f32_ty, f64_ty,
    i8_ptr_ty, i16_ptr_ty, i32_ptr_ty, i64_ptr_ty, f32_ptr_ty, f64_ptr_ty,
    anyfunc_ty, i1_zero, i32_zero, i64_zero, f32_zero, f64_zero,
    memory_grow_dynamic_local, memory_grow_static_local, memory_grow_shared_local,
    memory_grow_dynamic_import, memory_grow_static_import, memory_grow_shared_import,
    memory_size_dynamic_local, memory_size_static_local, memory_size_shared_local,
    memory_size_dynamic_import, memory_size_static_import, memory_size_shared_import,
    ctx_ty, ctx_ptr_ty⟩, m38)

/-- `type_to_llvm_ptr` from the source: the typed pointer type for a wasm
value type. -/
def type_to_llvm_ptr (intrinsics : Intrinsics) (ty : WasmType) : LLVMTy :=
  match ty with
  | WasmType.I32 => intrinsics.i32_ptr_ty
  | WasmType.I64 => intrinsics.i64_ptr_ty
  | WasmType.F32 => intrinsics.f32_ptr_ty
  | WasmType.F64 => intrinsics.f64_ptr_ty

/-- The per-index memory cache entry (`MemoryCache`): for a `Dynamic`
memory the two field pointers are cached, for a `Static` memory the loaded
base and bounds values. -/
inductive MemoryCache where
  | Dynamic (ptr_to_base_ptr : Value) (ptr_to_bounds : Value)
  | Static (base_ptr : Value) (bounds : Value)
  deriving DecidableEq

/-- The per-index table cache entry (`TableCache`): always the two field
pointers. -/
structure TableCache where
  ptr_to_base_ptr : Value
  ptr_to_bounds : Value
  deriving DecidableEq

/-- The per-index global cache entry (`GlobalCache`): the storage pointer
for a mutable global, the loaded integer value for an immutable one. -/
inductive GlobalCache where
  | Mut (ptr_to_value : Value)
  | Const (value : Value)
  deriving DecidableEq

/-- The per-index imported-function cache entry (`ImportedFuncCache`). -/
structure ImportedFuncCache where
  func_ptr : Value
  ctx_ptr : Value
  deriving DecidableEq

/-- Lookup in a cache, modelling `HashMap::get` on the assoc-list
representation. -/
def assocFind {α : Type} (l : List (Nat × α)) (k : Nat) : Option α :=
  match l with
  | [] => none
  | (k', v) :: rest => if k' = k then some v else assocFind rest k

/-- Insertion of a fresh key, modelling the insert performed by
`HashMap::entry(k).or_insert_with(..)` on a miss. -/
def assocInsert {α : Type} (l : List (Nat × α)) (k : Nat) (v : α) : List (Nat × α) :=
  List.append l [(k, v)]

/-- A function value: the list of its parameters
(`FunctionValue::get_nth_param`). -/
structure FunctionValue where
  params : List Value
  deriving DecidableEq

/-- The `CtxType` accessor: the context-pointer parameter, the shared
read-only pieces, the builder state, and the five per-function caches. -/
structure CtxType where
  ctx_ty : LLVMTy
  ctx_ptr_ty : LLVMTy
  ctx_ptr_value : Value
  intrinsics : Intrinsics
  info : ModuleInfo
  builder : BuilderState
  cached_memories : List (Nat × MemoryCache)
  cached_tables : List (Nat × TableCache)
  cached_sigindices : List (Nat × Value)
  cached_globals : List (Nat × GlobalCache)
  cached_imported_functions : List (Nat × ImportedFuncCache)
  deriving DecidableEq

/-- `Intrinsics::ctx(info, builder, func_value)`: builds the accessor with
empty caches around `func_value.get_nth_param(0).unwrap()
.into_pointer_value()`.  A missing first parameter (`unwrap`) or a
non-pointer first parameter (`into_pointer_value`) panics, modelled by
`none`. -/
def Intrinsics.ctx (intr : Intrinsics) (info : ModuleInfo) (builder : BuilderState)
    (func_value : FunctionValue) : Option CtxType :=
  match func_value.params[0]? with
  | none => none
  | some p =>
    match intoPointerValue p with
    | none => none
    | some ctx_ptr_value =>
      some { ctx_ty := intr.ctx_ty
             ctx_ptr_ty := intr.ctx_ptr_ty
             ctx_ptr_value := ctx_ptr_value
             intrinsics := intr
             info := info
             builder := builder
             cached_memories := []
             cached_tables := []
             cached_sigindices := []
             cached_globals := []
             cached_imported_functions := [] }

/-- The closure passed to `or_insert_with` in `CtxType::memory`: resolve
the index, chase `ctx -> descriptor array -> descriptor`, take pointers to
the base and bounds fields, and build the cache entry according to the
declared memory type (for `Static`/`SharedStatic`, load base and bounds
now). -/
def memoryOnMiss (c : CtxType) (index : Nat) : Option (MemoryCache × BuilderState) :=
  let resolved :=
    match memLocalOrImport c.info index with
    | LocalOrImport.Local local_mem_index =>
      let (g, b) := buildStructGep c.builder c.ctx_ptr_value 0 "memory_array_ptr_ptr"
      (c.info.memories[local_mem_index]?).map fun mt => (g, b, local_mem_index, mt)
    | LocalOrImport.Import import_mem_index =>
      let (g, b) := buildStructGep c.builder c.ctx_ptr_value 3 "memory_array_ptr_ptr"
      (c.info.imported_memories[import_mem_index]?).map fun mt =>
        (g, b, import_mem_index, mt)
  match resolved with
  | none => none
  | some (memory_array_ptr_ptr, b1, idx, memory_type) =>
    let (lv1, b2) := buildLoad b1 memory_array_ptr_ptr "memory_array_ptr"
    match intoPointerValue lv1 with
    | none => none
    | some memory_array_ptr =>
      let const_index := constIntVal c.intrinsics.i32_ty idx
      let (memory_ptr_ptr, b3) := buildInBoundsGep b2 memory_array_ptr const_index "memory_ptr_ptr"
      let (lv2, b4) := buildLoad b3 memory_ptr_ptr "memory_ptr"
      match intoPointerValue lv2 with
      | none => none
      | some memory_ptr =>
        let (ptr_to_base_ptr, b5) := buildStructGep b4 memory_ptr 0 "base_ptr"
        let (ptr_to_bounds, b6) := buildStructGep b5 memory_ptr 1 "bounds_ptr"
        match memory_type with
        | MemoryType.Dynamic => some (MemoryCache.Dynamic ptr_to_base_ptr ptr_to_bounds, b6)
        | MemoryType.Static =>
          let (lv3, b7) := buildLoad b6 ptr_to_base_ptr "base"
          match intoPointerValue lv3 with
          | none => none
          | some base_ptr =>
            let (lv4, b8) := buildLoad b7 ptr_to_bounds "bounds"
            match intoIntValue lv4 with
            | none => none
            | some bounds => some (MemoryCache.Static base_ptr bounds, b8)
        | MemoryType.SharedStatic =>
          let (lv3, b7) := buildLoad b6 ptr_to_base_ptr "base"
          match intoPointerValue lv3 with
          | none => none
          | some base_ptr =>
            let (lv4, b8) := buildLoad b7 ptr_to_bounds "bounds"
            match intoIntValue lv4 with
            | none => none
            | some bounds => some (MemoryCache.Static base_ptr bounds, b8)

/-- The `match memory_cache` step at the end of `CtxType::memory`: for a
`Dynamic` entry, re-load base and bounds through the cached field pointers;
for a `Static` entry, return the cached values unchanged. -/
def memoryApplyCache (c : CtxType) (mc : MemoryCache) :
    Option ((Value × Value) × CtxType) :=
  match mc with
  | MemoryCache.Dynamic ptr_to_base_ptr ptr_to_bounds =>
    let (lv1, b1) := buildLoad c.builder ptr_to_base_ptr "base"
    match intoPointerValue lv1 with
    | none => none
    | some base =>
      let (lv2, b2) := buildLoad b1 ptr_to_bounds "bounds"
      match intoIntValue lv2 with
      | none => none
      | some bounds => some ((base, bounds), { c with builder := b2 })
  | MemoryCache.Static base_ptr bounds => some ((base_ptr, bounds), c)

/-- `CtxType::memory(index)`: memoized lookup of the cache entry, then the
entry-directed load/return step. -/
def CtxType.memory (c : CtxType) (index : Nat) : Option ((Value × Value) × CtxType) :=
  match assocFind c.cached_memories index with
  | some mc => memoryApplyCache c mc
  | none =>
    match memoryOnMiss c index with
    | none => none
    | some (mc, b) =>
      memoryApplyCache
        { c with builder := b
                 cached_memories := assocInsert c.cached_memories index mc } mc

/-- The closure passed to `or_insert_with` in `CtxType::table`. -/
def tableOnMiss (c : CtxType) (index : Nat) : Option (TableCache × BuilderState) :=
  let resolved :=
    match tableLocalOrImport c.info index with
    | LocalOrImport.Local local_table_index =>
      let (g, b) := buildStructGep c.builder c.ctx_ptr_value 1 "table_array_ptr_ptr"
      (g, b, local_table_index)
    | LocalOrImport.Import import_table_index =>
      let (g, b) := buildStructGep c.builder c.ctx_ptr_value 4 "table_array_ptr_ptr"
      (g, b, import_table_index)
  match resolved with
  | (table_array_ptr_ptr, b1, idx) =>
    let (lv1, b2) := buildLoad b1 table_array_ptr_ptr "table_array_ptr"
    match intoPointerValue lv1 with
    | none => none
    | some table_array_ptr =>
      let const_index := constIntVal c.intrinsics.i32_ty idx
      let (table_ptr_ptr, b3) := buildInBoundsGep b2 table_array_ptr const_index "table_ptr_ptr"
      let (lv2, b4) := buildLoad b3 table_ptr_ptr "table_ptr"
      match intoPointerValue lv2 with
      | none => none
      | some table_ptr =>
        let (ptr_to_base_ptr, b5) := buildStructGep b4 table_ptr 0 "base_ptr"
        let (ptr_to_bounds, b6) := buildStructGep b5 table_ptr 1 "bounds_ptr"
        some (TableCache.mk ptr_to_base_ptr ptr_to_bounds, b6)

/-- The loads at the end of `CtxType::table`: on every call, hit or miss,
base and bounds are loaded afresh through the cached field pointers. -/
def tableApplyCache (c : CtxType) (tc : TableCache) :
    Option ((Value × Value) × CtxType) :=
  let (lv1, b1) := buildLoad c.builder tc.ptr_to_base_ptr "base_ptr"
  match intoPointerValue lv1 with
  | none => none
  | some base =>
    let (lv2, b2) := buildLoad b1 tc.ptr_to_bounds "bounds"
    match intoIntValue lv2 with
    | none => none
    | some bounds => some ((base, bounds), { c with builder := b2 })

/-- `CtxType::table(index)`. -/
def CtxType.table (c : CtxType) (index : Nat) : Option ((Value × Value) × CtxType) :=
  match assocFind c.cached_tables index with
  | some tc => tableApplyCache c tc
  | none =>
    match tableOnMiss c index with
    | none => none
    | some (tc, b) =>
      tableApplyCache
        { c with builder := b
                 cached_tables := assocInsert c.cached_tables index tc } tc

/-- `CtxType::dynamic_sigindex(index)`: loads the signature id through
context field 7 once per distinct index and caches the loaded value. -/
def CtxType.dynamic_sigindex (c : CtxType) (index : Nat) : Option (Value × CtxType) :=
  match assocFind c.cached_sigindices index with
  | some v => some (v, c)
  | none =>
    let (g, b1) := buildStructGep c.builder c.ctx_ptr_value 7 "sigindex_array_ptr_ptr"
    let (lv1, b2) := buildLoad b1 g "sigindex_array_ptr"
    match intoPointerValue lv1 with
    | none => none
    | some sigindex_array_ptr =>
      let const_index := constIntVal c.intrinsics.i32_ty index
      let (sigindex_ptr, b3) := buildInBoundsGep b2 sigindex_array_ptr const_index "sigindex_ptr"
      let (lv2, b4) := buildLoad b3 sigindex_ptr "sigindex"
      match intoIntValue lv2 with
      | none => none
      | some sigindex =>
        some (sigindex, { c with builder := b4
                                 cached_sigindices := assocInsert c.cached_sigindices index sigindex })

/-- The closure passed to `or_insert_with` in `CtxType::global_cache`:
resolve the index and its descriptor, chase the storage slot pointer,
re-type it via ptr-to-int / int-to-ptr round-tripping, and either keep the
typed pointer (mutable) or load the value once (immutable). -/
def globalOnMiss (c : CtxType) (index : Nat) : Option (GlobalCache × BuilderState) :=
  let resolved :=
    match globalLocalOrImport c.info index with
    | LocalOrImport.Local local_global_index =>
      (c.info.globals[local_global_index]?).map fun (desc : GlobalDesc) =>
        let (g, b) := buildStructGep c.builder c.ctx_ptr_value 2 "globals_array_ptr_ptr"
        (g, b, local_global_index, desc.mutable, desc.ty)
    | LocalOrImport.Import import_global_index =>
      (c.info.imported_globals[import_global_index]?).map fun (desc : GlobalDesc) =>
        let (g, b) := buildStructGep c.builder c.ctx_ptr_value 5 "globals_array_ptr_ptr"
        (g, b, import_global_index, desc.mutable, desc.ty)
  match resolved with
  | none => none
  | some (globals_array_ptr_ptr, b1, idx, mutable_flag, wasmer_ty) =>
    let llvm_ptr_ty := type_to_llvm_ptr c.intrinsics wasmer_ty
    let (lv1, b2) := buildLoad b1 globals_array_ptr_ptr "global_array_ptr"
    match intoPointerValue lv1 with
    | none => none
    | some global_array_ptr =>
      let const_index := constIntVal c.intrinsics.i32_ty idx
      let (global_ptr_ptr, b3) := buildInBoundsGep b2 global_array_ptr const_index "global_ptr_ptr"
      let (lv2, b4) := buildLoad b3 global_ptr_ptr "global_ptr"
      match intoPointerValue lv2 with
      | none => none
      | some global_ptr =>
        let (intv, b5) := buildPtrToInt b4 global_ptr c.intrinsics.i64_ty "global_ptr_int"
        let (global_ptr_typed, b6) := buildIntToPtr b5 intv llvm_ptr_ty "global_ptr_typed"
        if mutable_flag then
          some (GlobalCache.Mut global_ptr_typed, b6)
        else
          let (lv3, b7) := buildLoad b6 global_ptr_typed "global_value"
          match intoIntValue lv3 with
          | none => none
          | some value => some (GlobalCache.Const value, b7)

/-- `CtxType::global_cache(index)`: memoized; on a hit the cached entry is
returned unchanged. -/
def CtxType.global_cache (c : CtxType) (index : Nat) : Option (GlobalCache × CtxType) :=
  match assocFind c.cached_globals index with
  | some g => some (g, c)
  | none =>
    match globalOnMiss c index with
    | none => none
    | some (g, b) =>
      some (g, { c with builder := b
                        cached_globals := assocInsert c.cached_globals index g })

/-- The closure passed to `or_insert_with` in `CtxType::imported_func`:
chase context field 6 to the descriptor and load both of its fields. -/
def importedFuncOnMiss (c : CtxType) (index : Nat) :
    Option (ImportedFuncCache × BuilderState) :=
  let (g, b1) := buildStructGep c.builder c.ctx_ptr_value 6 "imported_func_array_ptr_ptr"
  let (lv1, b2) := buildLoad b1 g "func_array_ptr"
  match intoPointerValue lv1 with
  | none => none
  | some func_array_ptr =>
    let const_index := constIntVal c.intrinsics.i32_ty index
    let (imported_func_ptr_ptr, b3) :=
      buildInBoundsGep b2 func_array_ptr const_index "imported_func_ptr_ptr"
    let (lv2, b4) := buildLoad b3 imported_func_ptr_ptr "imported_func_ptr"
    match intoPointerValue lv2 with
    | none => none
    | some imported_func_ptr =>
      let (func_ptr_ptr, b5) := buildStructGep b4 imported_func_ptr 0 "func_ptr_ptr"
      let (ctx_ptr_ptr, b6) := buildStructGep b5 imported_func_ptr 1 "ctx_ptr_ptr"
      let (lv3, b7) := buildLoad b6 func_ptr_ptr "func_ptr"
      match intoPointerValue lv3 with
      | none => none
      | some func_ptr =>
        let (lv4, b8) := buildLoad b7 ctx_ptr_ptr "ctx_ptr"
        match intoPointerValue lv4 with
        | none => none
        | some ctx_ptr => some (ImportedFuncCache.mk func_ptr ctx_ptr, b8)

/-- `CtxType::imported_func(index)`: memoized; returns the cached pair. -/
def CtxType.imported_func (c : CtxType) (index : Nat) :
    Option ((Value × Value) × CtxType) :=
  match assocFind c.cached_imported_functions index with
  | some fc => some ((fc.func_ptr, fc.ctx_ptr), c)
  | none =>
    match importedFuncOnMiss c index with
    | none => none
    | some (fc, b) =>
      some ((fc.func_ptr, fc.ctx_ptr),
            { c with builder := b
                     cached_imported_functions :=
                       assocInsert c.cached_imported_functions index fc })

/-- `CtxType::build_trap()`: emits a call to the trap intrinsic. -/
def CtxType.build_trap (c : CtxType) : CtxType :=
  let (_, b) := buildCall c.builder c.intrinsics.trap.name [] "trap"
  { c with builder := b }

/-! Classification of the declared symbol names, for the manifest and
naming-convention claims. -/

/-- Does the name live in the `vm.` namespace? -/
def isVmName (s : String) : Bool :=
  match s.data with
  | 'v' :: 'm' :: '.' :: _ => true
  | _ => false

/-- Does the name live in the `llvm.` namespace? -/
def isLlvmName (s : String) : Bool :=
  match s.data with
  | 'l' :: 'l' :: 'v' :: 'm' :: '.' :: _ => true
  | _ => false

/-- The two control symbols: the branch-likelihood hint and the trap. -/
def isControlName (s : String) : Bool :=
  s == "llvm.expect.i1" || s == "llvm.trap"

/-- A numeric primitive: an `llvm.` symbol that is not one of the two
control symbols. -/
def isNumericPrimitiveName (s : String) : Bool :=
  isLlvmName s && !(isControlName s)

/-- Split a character list at the dots. -/
def splitDotsAux : List Char → List Char → List (List Char)
  | [], acc => [acc.reverse]
  | ch :: rest, acc =>
    if ch = '.' then acc.reverse :: splitDotsAux rest []
    else splitDotsAux rest (ch :: acc)

/-- The dot-separated components of a symbol name. -/
def nameParts (s : String) : List String :=
  (splitDotsAux s.data []).map fun l => String.mk l

/-- The four width suffixes of the numeric primitives. -/
def widthNames : List String := ["i32", "i64", "f32", "f64"]

/-- Does the name have the shape `namespace.op.width` with a recognized
width suffix? -/
def hasNumericForm (s : String) : Bool :=
  match nameParts s with
  | [_, _, w] => widthNames.contains w
  | _ => false

/-- Does the name have the shape `vm.resource.operation.discipline
.locality` (five components, first `vm`)? -/
def hasVmEntryForm (s : String) : Bool :=
  match nameParts s with
  | [a, _, _, _, _] => a == "vm"
  | _ => false

/-- The 2 x 3 x 2 cross product of memory entry point names, in the
declaration order of the source. -/
def memoryEntryNames : List String :=
  List.flatMap ["grow", "size"] fun op =>
    List.flatMap ["local", "import"] fun loc =>
      List.map (fun disc => "vm.memory." ++ op ++ "." ++ disc ++ "." ++ loc)
        ["dynamic", "static", "shared"]

/-- The module produced by a single `Intrinsics::declare` call on an empty
compilation unit. -/
def declaredModule : List FnDecl := (Intrinsics.declare []).2

/-- The intrinsic handle table produced by that call. -/
def declaredIntrinsics : Intrinsics := (Intrinsics.declare []).1

/-! Concrete states used by the witness theorems. -/

/-- An empty builder. -/
def emptyBuilder : BuilderState := ⟨0, []⟩

/-- A generated function whose first parameter is a context pointer. -/
def exampleFunction : FunctionValue :=
  ⟨[⟨ValueKind.param 0 0, LLVMTy.ptr LLVMTy.ctxStruct⟩]⟩

/-- Example module metadata: one imported `Static` memory (unified memory
index 0), a local `Dynamic` memory (index 1) and a local `Static` memory
(index 2); one local and one imported table; a mutable `I32` global
(index 0), an immutable `F32` global (index 1) and an immutable `I64`
global (index 2), all local. -/
def exampleInfo : ModuleInfo :=
  { memories := [MemoryType.Dynamic, MemoryType.Static]
    imported_memories := [MemoryType.Static]
    tables := 1
    imported_tables := 1
    globals := [GlobalDesc.mk true WasmType.I32, GlobalDesc.mk false WasmType.F32,
                GlobalDesc.mk false WasmType.I64]
    imported_globals := [] }

/-- The accessor state `Intrinsics::ctx` builds for `exampleFunction` over
`exampleInfo`: empty caches around the typed context parameter. -/
def exampleCtx : CtxType :=
  { ctx_ty := declaredIntrinsics.ctx_ty
    ctx_ptr_ty := declaredIntrinsics.ctx_ptr_ty
    ctx_ptr_value := ⟨ValueKind.param 0 0, LLVMTy.ptr LLVMTy.ctxStruct⟩
    intrinsics := declaredIntrinsics
    info := exampleInfo
    builder := emptyBuilder
    cached_memories := []
    cached_tables := []
    cached_sigindices := []
    cached_globals := []
    cached_imported_functions := [] }

/-- A dummy result pair, used only as the unreachable default of the
concrete runs below. -/
def dummyRun : (Value × Value) × CtxType :=
  ((exampleCtx.ctx_ptr_value, exampleCtx.ctx_ptr_value), exampleCtx)

/-- The first access to the imported table at index 0 of the example
state. -/
def tableRun1 : (Value × Value) × CtxType :=
  match CtxType.table exampleCtx 0 with
  | some rc => rc
  | none => dummyRun

/-- The second access to the same table, from the state after the
first. -/
def tableRun2 : (Value × Value) × CtxType :=
  match CtxType.table tableRun1.2 0 with
  | some rc => rc
  | none => dummyRun

/-- The first access to the local `Dynamic` memory at unified index 1 of
the example state. -/
def memRun1 : (Value × Value) × CtxType :=
  match CtxType.memory exampleCtx 1 with
  | some rc => rc
  | none => dummyRun

/-- The first access to the imported `Static` memory at unified index 0 of
the example state. -/
def memRunS1 : (Value × Value) × CtxType :=
  match CtxType.memory exampleCtx 0 with
  | some rc => rc
  | none => dummyRun

end WasmerLLVM

namespace WasmerLLVM

/-! Theorems for the claims, preceded by shared helper lemmas about the
cache discipline. -/

theorem assocFind_insert_self {α : Type} (l : List (Nat × α)) (k : Nat) (v : α)
    (h : assocFind l k = none) : assocFind (assocInsert l k v) k = some v := by
  induction l with
  | nil => simp [assocInsert, assocFind]
  | cons hd tl ih =>
    obtain ⟨k', v'⟩ := hd
    by_cases hk : k' = k
    · simp [assocFind, hk] at h
    · simp only [assocFind, hk, if_neg hk] at h
      simpa [assocInsert, assocFind, hk] using ih h

theorem getElem?_append_self {α : Type} (l : List α) (a : α) (t : List α) :
    (l ++ a :: t)[l.length]? = some a := by
  rw [List.getElem?_append_right (Nat.le_refl _)]
  simp

theorem memory_hit (c : CtxType) (i : Nat) (mc : MemoryCache)
    (h : assocFind c.cached_memories i = some mc) :
    CtxType.memory c i = memoryApplyCache c mc := by
  unfold CtxType.memory
  rw [h]

theorem memory_miss (c : CtxType) (i : Nat)
    (h : assocFind c.cached_memories i = none) :
    CtxType.memory c i =
      match memoryOnMiss c i with
      | none => none
      | some (mc, b) =>
        memoryApplyCache
          { c with builder := b
                   cached_memories := assocInsert c.cached_memories i mc } mc := by
  unfold CtxType.memory
  rw [h]

theorem memoryApplyCache_static (c : CtxType) (bp bd : Value) :
    memoryApplyCache c (MemoryCache.Static bp bd) = some ((bp, bd), c) := rfl

theorem memoryApplyCache_dynamic_eq (c : CtxType) (p q : Value)
    (hp : isPtrTy (pointee p.ty) = true) (hq : isIntTy (pointee q.ty) = true) :
    memoryApplyCache c (MemoryCache.Dynamic p q) =
      some ((⟨ValueKind.ssa c.builder.nextId, pointee p.ty⟩,
             ⟨ValueKind.ssa (c.builder.nextId + 1), pointee q.ty⟩),
            { c with builder :=
                ⟨c.builder.nextId + 2,
                 c.builder.instrs ++
                   [Instr.load p "base" c.builder.nextId,
                    Instr.load q "bounds" (c.builder.nextId + 1)]⟩ }) := by
  simp [memoryApplyCache, buildLoad, BuilderState.emit, intoPointerValue, intoIntValue, hp, hq]

theorem memoryApplyCache_dynamic_inv (c : CtxType) (p q : Value)
    (r : Value × Value) (c₂ : CtxType)
    (h : memoryApplyCache c (MemoryCache.Dynamic p q) = some (r, c₂)) :
    isPtrTy (pointee p.ty) = true ∧ isIntTy (pointee q.ty) = true := by
  by_cases hp : isPtrTy (pointee p.ty) = true
  · by_cases hq : isIntTy (pointee q.ty) = true
    · exact ⟨hp, hq⟩
    · simp [memoryApplyCache, buildLoad, BuilderState.emit, intoPointerValue, intoIntValue,
        hp, hq] at h
  · simp [memoryApplyCache, buildLoad, BuilderState.emit, intoPointerValue, hp] at h

theorem table_hit (c : CtxType) (i : Nat) (tc : TableCache)
    (h : assocFind c.cached_tables i = some tc) :
    CtxType.table c i = tableApplyCache c tc := by
  unfold CtxType.table
  rw [h]

theorem table_miss (c : CtxType) (i : Nat)
    (h : assocFind c.cached_tables i = none) :
    CtxType.table c i =
      match tableOnMiss c i with
      | none => none
      | some (tc, b) =>
        tableApplyCache
          { c with builder := b
                   cached_tables := assocInsert c.cached_tables i tc } tc := by
  unfold CtxType.table
  rw [h]

theorem tableApplyCache_eq (c : CtxType) (tc : TableCache)
    (hp : isPtrTy (pointee tc.ptr_to_base_ptr.ty) = true)
    (hq : isIntTy (pointee tc.ptr_to_bounds.ty) = true) :
    tableApplyCache c tc =
      some ((⟨ValueKind.ssa c.builder.nextId, pointee tc.ptr_to_base_ptr.ty⟩,
             ⟨ValueKind.ssa (c.builder.nextId + 1), pointee tc.ptr_to_bounds.ty⟩),
            { c with builder :=
                ⟨c.builder.nextId + 2,
                 c.builder.instrs ++
                   [Instr.load tc.ptr_to_base_ptr "base_ptr" c.builder.nextId,
                    Instr.load tc.ptr_to_bounds "bounds" (c.builder.nextId + 1)]⟩ }) := by
  simp [tableApplyCache, buildLoad, BuilderState.emit, intoPointerValue, intoIntValue, hp, hq]

theorem tableApplyCache_inv (c : CtxType) (tc : TableCache)
    (r : Value × Value) (c₂ : CtxType)
    (h : tableApplyCache c tc = some (r, c₂)) :
    isPtrTy (pointee tc.ptr_to_base_ptr.ty) = true ∧
      isIntTy (pointee tc.ptr_to_bounds.ty) = true := by
  by_cases hp : isPtrTy (pointee tc.ptr_to_base_ptr.ty) = true
  · by_cases hq : isIntTy (pointee tc.ptr_to_bounds.ty) = true
    · exact ⟨hp, hq⟩
    · simp [tableApplyCache, buildLoad, BuilderState.emit, intoPointerValue, intoIntValue,
        hp, hq] at h
  · simp [tableApplyCache, buildLoad, BuilderState.emit, intoPointerValue, hp] at h

theorem global_hit (c : CtxType) (i : Nat) (g : GlobalCache)
    (h : assocFind c.cached_globals i = some g) :
    CtxType.global_cache c i = some (g, c) := by
  unfold CtxType.global_cache
  rw [h]

theorem global_miss (c : CtxType) (i : Nat)
    (h : assocFind c.cached_globals i = none) :
    CtxType.global_cache c i =
      match globalOnMiss c i with
      | none => none
      | some (g, b) =>
        some (g, { c with builder := b
                          cached_globals := assocInsert c.cached_globals i g }) := by
  unfold CtxType.global_cache
  rw [h]

theorem sigindex_hit (c : CtxType) (i : Nat) (v : Value)
    (h : assocFind c.cached_sigindices i = some v) :
    CtxType.dynamic_sigindex c i = some (v, c) := by
  unfold CtxType.dynamic_sigindex
  rw [h]

theorem imported_func_hit (c : CtxType) (i : Nat) (fc : ImportedFuncCache)
    (h : assocFind c.cached_imported_functions i = some fc) :
    CtxType.imported_func c i = some ((fc.func_ptr, fc.ctx_ptr), c) := by
  unfold CtxType.imported_func
  rw [h]

theorem memoryOnMiss_local_dynamic (c : CtxType) (i l : Nat)
    (hres : memLocalOrImport c.info i = LocalOrImport.Local l)
    (hty : c.info.memories[l]? = some MemoryType.Dynamic)
    (hctx : c.ctx_ptr_value.ty = LLVMTy.ptr LLVMTy.ctxStruct) :
    memoryOnMiss c i =
      some (MemoryCache.Dynamic
              ⟨ValueKind.ssa (c.builder.nextId + 4), LLVMTy.ptr (LLVMTy.ptr LLVMTy.i8)⟩
              ⟨ValueKind.ssa (c.builder.nextId + 5), LLVMTy.ptr LLVMTy.i64⟩,
            ⟨c.builder.nextId + 6,
             c.builder.instrs ++
               [Instr.structGep c.ctx_ptr_value 0 "memory_array_ptr_ptr" c.builder.nextId,
                Instr.load
                  ⟨ValueKind.ssa c.builder.nextId,
                   LLVMTy.ptr (LLVMTy.ptr (LLVMTy.ptr LLVMTy.localMemoryStruct))⟩
                  "memory_array_ptr" (c.builder.nextId + 1),
                Instr.gep
                  ⟨ValueKind.ssa (c.builder.nextId + 1),
                   LLVMTy.ptr (LLVMTy.ptr LLVMTy.localMemoryStruct)⟩
                  ⟨ValueKind.constInt l, c.intrinsics.i32_ty⟩
                  "memory_ptr_ptr" (c.builder.nextId + 2),
                Instr.load
                  ⟨ValueKind.ssa (c.builder.nextId + 2),
                   LLVMTy.ptr (LLVMTy.ptr LLVMTy.localMemoryStruct)⟩
                  "memory_ptr" (c.builder.nextId + 3),
                Instr.structGep
                  ⟨ValueKind.ssa (c.builder.nextId + 3), LLVMTy.ptr LLVMTy.localMemoryStruct⟩
                  0 "base_ptr" (c.builder.nextId + 4),
                Instr.structGep
                  ⟨ValueKind.ssa (c.builder.nextId + 3), LLVMTy.ptr LLVMTy.localMemoryStruct⟩
                  1 "bounds_ptr" (c.builder.nextId + 5)]⟩) := by
  simp [memoryOnMiss, hres, hty, hctx, buildStructGep, buildLoad, buildInBoundsGep,
    BuilderState.emit, intoPointerValue, intoIntValue, isPtrTy, isIntTy, pointee, fieldTy,
    structFields, constIntVal]

theorem memoryOnMiss_import_dynamic (c : CtxType) (i l : Nat)
    (hres : memLocalOrImport c.info i = LocalOrImport.Import l)
    (hty : c.info.imported_memories[l]? = some MemoryType.Dynamic)
    (hctx : c.ctx_ptr_value.ty = LLVMTy.ptr LLVMTy.ctxStruct) :
    memoryOnMiss c i =
      some (MemoryCache.Dynamic
              ⟨ValueKind.ssa (c.builder.nextId + 4), LLVMTy.ptr (LLVMTy.ptr LLVMTy.i8)⟩
              ⟨ValueKind.ssa (c.builder.nextId + 5), LLVMTy.ptr LLVMTy.i64⟩,
            ⟨c.builder.nextId + 6,
             c.builder.instrs ++
               [Instr.structGep c.ctx_ptr_value 3 "memory_array_ptr_ptr" c.builder.nextId,
                Instr.load
                  ⟨ValueKind.ssa c.builder.nextId,
                   LLVMTy.ptr (LLVMTy.ptr (LLVMTy.ptr LLVMTy.localMemoryStruct))⟩
                  "memory_array_ptr" (c.builder.nextId + 1),
                Instr.gep
                  ⟨ValueKind.ssa (c.builder.nextId + 1),
                   LLVMTy.ptr (LLVMTy.ptr LLVMTy.localMemoryStruct)⟩
                  ⟨ValueKind.constInt l, c.intrinsics.i32_ty⟩
                  "memory_ptr_ptr" (c.builder.nextId + 2),
                Instr.load
                  ⟨ValueKind.ssa (c.builder.nextId + 2),
                   LLVMTy.ptr (LLVMTy.ptr LLVMTy.localMemoryStruct)⟩
                  "memory_ptr" (c.builder.nextId + 3),
                Instr.structGep
                  ⟨ValueKind.ssa (c.builder.nextId + 3), LLVMTy.ptr LLVMTy.localMemoryStruct⟩
                  0 "base_ptr" (c.builder.nextId + 4),
                Instr.structGep
                  ⟨ValueKind.ssa (c.builder.nextId + 3), LLVMTy.ptr LLVMTy.localMemoryStruct⟩
                  1 "bounds_ptr" (c.builder.nextId + 5)]⟩) := by
  simp [memoryOnMiss, hres, hty, hctx, buildStructGep, buildLoad, buildInBoundsGep,
    BuilderState.emit, intoPointerValue, intoIntValue, isPtrTy, isIntTy, pointee, fieldTy,
    structFields, constIntVal]

theorem memoryOnMiss_local_static (c : CtxType) (i l : Nat)
    (hres : memLocalOrImport c.info i = LocalOrImport.Local l)
    (hty : c.info.memories[l]? = some MemoryType.Static ∨
           c.info.memories[l]? = some MemoryType.SharedStatic)
    (hctx : c.ctx_ptr_value.ty = LLVMTy.ptr LLVMTy.ctxStruct) :
    memoryOnMiss c i =
      some (MemoryCache.Static
              ⟨ValueKind.ssa (c.builder.nextId + 6), LLVMTy.ptr LLVMTy.i8⟩
              ⟨ValueKind.ssa (c.builder.nextId + 7), LLVMTy.i64⟩,
            ⟨c.builder.nextId + 8,
             c.builder.instrs ++
               [Instr.structGep c.ctx_ptr_value 0 "memory_array_ptr_ptr" c.builder.nextId,
                Instr.load
                  ⟨ValueKind.ssa c.builder.nextId,
                   LLVMTy.ptr (LLVMTy.ptr (LLVMTy.ptr LLVMTy.localMemoryStruct))⟩
                  "memory_array_ptr" (c.builder.nextId + 1),
                Instr.gep
                  ⟨ValueKind.ssa (c.builder.nextId + 1),
                   LLVMTy.ptr (LLVMTy.ptr LLVMTy.localMemoryStruct)⟩
                  ⟨ValueKind.constInt l, c.intrinsics.i32_ty⟩
                  "memory_ptr_ptr" (c.builder.nextId + 2),
                Instr.load
                  ⟨ValueKind.ssa (c.builder.nextId + 2),
                   LLVMTy.ptr (LLVMTy.ptr LLVMTy.localMemoryStruct)⟩
                  "memory_ptr" (c.builder.nextId + 3),
                Instr.structGep
                  ⟨ValueKind.ssa (c.builder.nextId + 3), LLVMTy.ptr LLVMTy.localMemoryStruct⟩
                  0 "base_ptr" (c.builder.nextId + 4),
                Instr.structGep
                  ⟨ValueKind.ssa (c.builder.nextId + 3), LLVMTy.ptr LLVMTy.localMemoryStruct⟩
                  1 "bounds_ptr" (c.builder.nextId + 5),
                Instr.load
                  ⟨ValueKind.ssa (c.builder.nextId + 4), LLVMTy.ptr (LLVMTy.ptr LLVMTy.i8)⟩
                  "base" (c.builder.nextId + 6),
                Instr.load
                  ⟨ValueKind.ssa (c.builder.nextId + 5), LLVMTy.ptr LLVMTy.i64⟩
                  "bounds" (c.builder.nextId + 7)]⟩) := by
  rcases hty with hty | hty <;>
    simp [memoryOnMiss, hres, hty, hctx, buildStructGep, buildLoad, buildInBoundsGep,
      BuilderState.emit, intoPointerValue, intoIntValue, isPtrTy, isIntTy, pointee, fieldTy,
      structFields, constIntVal]

theorem memoryOnMiss_import_static (c : CtxType) (i l : Nat)
    (hres : memLocalOrImport c.info i = LocalOrImport.Import l)
    (hty : c.info.imported_memories[l]? = some MemoryType.Static ∨
           c.info.imported_memories[l]? = some MemoryType.SharedStatic)
    (hctx : c.ctx_ptr_value.ty = LLVMTy.ptr LLVMTy.ctxStruct) :
    memoryOnMiss c i =
      some (MemoryCache.Static
              ⟨ValueKind.ssa (c.builder.nextId + 6), LLVMTy.ptr LLVMTy.i8⟩
              ⟨ValueKind.ssa (c.builder.nextId + 7), LLVMTy.i64⟩,
            ⟨c.builder.nextId + 8,
             c.builder.instrs ++
               [Instr.structGep c.ctx_ptr_value 3 "memory_array_ptr_ptr" c.builder.nextId,
                Instr.load
                  ⟨ValueKind.ssa c.builder.nextId,
                   LLVMTy.ptr (LLVMTy.ptr (LLVMTy.ptr LLVMTy.localMemoryStruct))⟩
                  "memory_array_ptr" (c.builder.nextId + 1),
                Instr.gep
                  ⟨ValueKind.ssa (c.builder.nextId + 1),
                   LLVMTy.ptr (LLVMTy.ptr LLVMTy.localMemoryStruct)⟩
                  ⟨ValueKind.constInt l, c.intrinsics.i32_ty⟩
                  "memory_ptr_ptr" (c.builder.nextId + 2),
                Instr.load
                  ⟨ValueKind.ssa (c.builder.nextId + 2),
                   LLVMTy.ptr (LLVMTy.ptr LLVMTy.localMemoryStruct)⟩
                  "memory_ptr" (c.builder.nextId + 3),
                Instr.structGep
                  ⟨ValueKind.ssa (c.builder.nextId + 3), LLVMTy.ptr LLVMTy.localMemoryStruct⟩
                  0 "base_ptr" (c.builder.nextId + 4),
                Instr.structGep
                  ⟨ValueKind.ssa (c.builder.nextId + 3), LLVMTy.ptr LLVMTy.localMemoryStruct⟩
                  1 "bounds_ptr" (c.builder.nextId + 5),
                Instr.load
                  ⟨ValueKind.ssa (c.builder.nextId + 4), LLVMTy.ptr (LLVMTy.ptr LLVMTy.i8)⟩
                  "base" (c.builder.nextId + 6),
                Instr.load
                  ⟨ValueKind.ssa (c.builder.nextId + 5), LLVMTy.ptr LLVMTy.i64⟩
                  "bounds" (c.builder.nextId + 7)]⟩) := by
  rcases hty with hty | hty <;>
    simp [memoryOnMiss, hres, hty, hctx, buildStructGep, buildLoad, buildInBoundsGep,
      BuilderState.emit, intoPointerValue, intoIntValue, isPtrTy, isIntTy, pointee, fieldTy,
      structFields, constIntVal]

theorem memoryOnMiss_local_oob (c : CtxType) (i l : Nat)
    (hres : memLocalOrImport c.info i = LocalOrImport.Local l)
    (hty : c.info.memories[l]? = none) :
    memoryOnMiss c i = none := by
  simp [memoryOnMiss, hres, hty]

theorem memoryOnMiss_import_oob (c : CtxType) (i l : Nat)
    (hres : memLocalOrImport c.info i = LocalOrImport.Import l)
    (hty : c.info.imported_memories[l]? = none) :
    memoryOnMiss c i = none := by
  simp [memoryOnMiss, hres, hty]

theorem tableOnMiss_local (c : CtxType) (i l : Nat)
    (hres : tableLocalOrImport c.info i = LocalOrImport.Local l)
    (hctx : c.ctx_ptr_value.ty = LLVMTy.ptr LLVMTy.ctxStruct) :
    tableOnMiss c i =
      some (TableCache.mk
              ⟨ValueKind.ssa (c.builder.nextId + 4), LLVMTy.ptr (LLVMTy.ptr LLVMTy.i8)⟩
              ⟨ValueKind.ssa (c.builder.nextId + 5), LLVMTy.ptr LLVMTy.i64⟩,
            ⟨c.builder.nextId + 6,
             c.builder.instrs ++
               [Instr.structGep c.ctx_ptr_value 1 "table_array_ptr_ptr" c.builder.nextId,
                Instr.load
                  ⟨ValueKind.ssa c.builder.nextId,
                   LLVMTy.ptr (LLVMTy.ptr (LLVMTy.ptr LLVMTy.localMemoryStruct))⟩
                  "table_array_ptr" (c.builder.nextId + 1),
                Instr.gep
                  ⟨ValueKind.ssa (c.builder.nextId + 1),
                   LLVMTy.ptr (LLVMTy.ptr LLVMTy.localMemoryStruct)⟩
                  ⟨ValueKind.constInt l, c.intrinsics.i32_ty⟩
                  "table_ptr_ptr" (c.builder.nextId + 2),
                Instr.load
                  ⟨ValueKind.ssa (c.builder.nextId + 2),
                   LLVMTy.ptr (LLVMTy.ptr LLVMTy.localMemoryStruct)⟩
                  "table_ptr" (c.builder.nextId + 3),
                Instr.structGep
                  ⟨ValueKind.ssa (c.builder.nextId + 3), LLVMTy.ptr LLVMTy.localMemoryStruct⟩
                  0 "base_ptr" (c.builder.nextId + 4),
                Instr.structGep
                  ⟨ValueKind.ssa (c.builder.nextId + 3), LLVMTy.ptr LLVMTy.localMemoryStruct⟩
                  1 "bounds_ptr" (c.builder.nextId + 5)]⟩) := by
  simp [tableOnMiss, hres, hctx, buildStructGep, buildLoad, buildInBoundsGep,
    BuilderState.emit, intoPointerValue, intoIntValue, isPtrTy, isIntTy, pointee, fieldTy,
    structFields, constIntVal]

theorem tableOnMiss_import (c : CtxType) (i l : Nat)
    (hres : tableLocalOrImport c.info i = LocalOrImport.Import l)
    (hctx : c.ctx_ptr_value.ty = LLVMTy.ptr LLVMTy.ctxStruct) :
    tableOnMiss c i =
      some (TableCache.mk
              ⟨ValueKind.ssa (c.builder.nextId + 4), LLVMTy.ptr (LLVMTy.ptr LLVMTy.i8)⟩
              ⟨ValueKind.ssa (c.builder.nextId + 5), LLVMTy.ptr LLVMTy.i64⟩,
            ⟨c.builder.nextId + 6,
             c.builder.instrs ++
               [Instr.structGep c.ctx_ptr_value 4 "table_array_ptr_ptr" c.builder.nextId,
                Instr.load
                  ⟨ValueKind.ssa c.builder.nextId,
                   LLVMTy.ptr (LLVMTy.ptr (LLVMTy.ptr LLVMTy.localMemoryStruct))⟩
                  "table_array_ptr" (c.builder.nextId + 1),
                Instr.gep
                  ⟨ValueKind.ssa (c.builder.nextId + 1),
                   LLVMTy.ptr (LLVMTy.ptr LLVMTy.localMemoryStruct)⟩
                  ⟨ValueKind.constInt l, c.intrinsics.i32_ty⟩
                  "table_ptr_ptr" (c.builder.nextId + 2),
                Instr.load
                  ⟨ValueKind.ssa (c.builder.nextId + 2),
                   LLVMTy.ptr (LLVMTy.ptr LLVMTy.localMemoryStruct)⟩
                  "table_ptr" (c.builder.nextId + 3),
                Instr.structGep
                  ⟨ValueKind.ssa (c.builder.nextId + 3), LLVMTy.ptr LLVMTy.localMemoryStruct⟩
                  0 "base_ptr" (c.builder.nextId + 4),
                Instr.structGep
                  ⟨ValueKind.ssa (c.builder.nextId + 3), LLVMTy.ptr LLVMTy.localMemoryStruct⟩
                  1 "bounds_ptr" (c.builder.nextId + 5)]⟩) := by
  simp [tableOnMiss, hres, hctx, buildStructGep, buildLoad, buildInBoundsGep,
    BuilderState.emit, intoPointerValue, intoIntValue, isPtrTy, isIntTy, pointee, fieldTy,
    structFields, constIntVal]

theorem globalOnMiss_local_mut (c : CtxType) (i l : Nat) (d : GlobalDesc)
    (hres : globalLocalOrImport c.info i = LocalOrImport.Local l)
    (hdesc : c.info.globals[l]? = some d)
    (hmut : d.mutable = true)
    (hctx : c.ctx_ptr_value.ty = LLVMTy.ptr LLVMTy.ctxStruct) :
    globalOnMiss c i =
      some (GlobalCache.Mut
              ⟨ValueKind.ssa (c.builder.nextId + 5), type_to_llvm_ptr c.intrinsics d.ty⟩,
            ⟨c.builder.nextId + 6,
             c.builder.instrs ++
               [Instr.structGep c.ctx_ptr_value 2 "globals_array_ptr_ptr" c.builder.nextId,
                Instr.load
                  ⟨ValueKind.ssa c.builder.nextId,
                   LLVMTy.ptr (LLVMTy.ptr (LLVMTy.ptr LLVMTy.i64))⟩
                  "global_array_ptr" (c.builder.nextId + 1),
                Instr.gep
                  ⟨ValueKind.ssa (c.builder.nextId + 1), LLVMTy.ptr (LLVMTy.ptr LLVMTy.i64)⟩
                  ⟨ValueKind.constInt l, c.intrinsics.i32_ty⟩
                  "global_ptr_ptr" (c.builder.nextId + 2),
                Instr.load
                  ⟨ValueKind.ssa (c.builder.nextId + 2), LLVMTy.ptr (LLVMTy.ptr LLVMTy.i64)⟩
                  "global_ptr" (c.builder.nextId + 3),
                Instr.ptrToInt
                  ⟨ValueKind.ssa (c.builder.nextId + 3), LLVMTy.ptr LLVMTy.i64⟩
                  c.intrinsics.i64_ty "global_ptr_int" (c.builder.nextId + 4),
                Instr.intToPtr
                  ⟨ValueKind.ssa (c.builder.nextId + 4), c.intrinsics.i64_ty⟩
                  (type_to_llvm_ptr c.intrinsics d.ty)
                  "global_ptr_typed" (c.builder.nextId + 5)]⟩) := by
  simp [globalOnMiss, hres, hdesc, hmut, hctx, buildStructGep, buildLoad, buildInBoundsGep,
    buildPtrToInt, buildIntToPtr, BuilderState.emit, intoPointerValue, intoIntValue,
    isPtrTy, isIntTy, pointee, fieldTy, structFields, constIntVal]

theorem globalOnMiss_import_mut (c : CtxType) (i l : Nat) (d : GlobalDesc)
    (hres : globalLocalOrImport c.info i = LocalOrImport.Import l)
    (hdesc : c.info.imported_globals[l]? = some d)
    (hmut : d.mutable = true)
    (hctx : c.ctx_ptr_value.ty = LLVMTy.ptr LLVMTy.ctxStruct) :
    globalOnMiss c i =
      some (GlobalCache.Mut
              ⟨ValueKind.ssa (c.builder.nextId + 5), type_to_llvm_ptr c.intrinsics d.ty⟩,
            ⟨c.builder.nextId + 6,
             c.builder.instrs ++
               [Instr.structGep c.ctx_ptr_value 5 "globals_array_ptr_ptr" c.builder.nextId,
                Instr.load
                  ⟨ValueKind.ssa c.builder.nextId,
                   LLVMTy.ptr (LLVMTy.ptr (LLVMTy.ptr LLVMTy.i64))⟩
                  "global_array_ptr" (c.builder.nextId + 1),
                Instr.gep
                  ⟨ValueKind.ssa (c.builder.nextId + 1), LLVMTy.ptr (LLVMTy.ptr LLVMTy.i64)⟩
                  ⟨ValueKind.constInt l, c.intrinsics.i32_ty⟩
                  "global_ptr_ptr" (c.builder.nextId + 2),
                Instr.load
                  ⟨ValueKind.ssa (c.builder.nextId + 2), LLVMTy.ptr (LLVMTy.ptr LLVMTy.i64)⟩
                  "global_ptr" (c.builder.nextId + 3),
                Instr.ptrToInt
                  ⟨ValueKind.ssa (c.builder.nextId + 3), LLVMTy.ptr LLVMTy.i64⟩
                  c.intrinsics.i64_ty "global_ptr_int" (c.builder.nextId + 4),
                Instr.intToPtr
                  ⟨ValueKind.ssa (c.builder.nextId + 4), c.intrinsics.i64_ty⟩
                  (type_to_llvm_ptr c.intrinsics d.ty)
                  "global_ptr_typed" (c.builder.nextId + 5)]⟩) := by
  simp [globalOnMiss, hres, hdesc, hmut, hctx, buildStructGep, buildLoad, buildInBoundsGep,
    buildPtrToInt, buildIntToPtr, BuilderState.emit, intoPointerValue, intoIntValue,
    isPtrTy, isIntTy, pointee, fieldTy, structFields, constIntVal]

theorem globalOnMiss_local_immut (c : CtxType) (i l : Nat) (d : GlobalDesc)
    (hres : globalLocalOrImport c.info i = LocalOrImport.Local l)
    (hdesc : c.info.globals[l]? = some d)
    (hmut : d.mutable = false)
    (hint : isIntTy (pointee (type_to_llvm_ptr c.intrinsics d.ty)) = true)
    (hctx : c.ctx_ptr_value.ty = LLVMTy.ptr LLVMTy.ctxStruct) :
    globalOnMiss c i =
      some (GlobalCache.Const
              ⟨ValueKind.ssa (c.builder.nextId + 6),
               pointee (type_to_llvm_ptr c.intrinsics d.ty)⟩,
            ⟨c.builder.nextId + 7,
             c.builder.instrs ++
               [Instr.structGep c.ctx_ptr_value 2 "globals_array_ptr_ptr" c.builder.nextId,
                Instr.load
                  ⟨ValueKind.ssa c.builder.nextId,
                   LLVMTy.ptr (LLVMTy.ptr (LLVMTy.ptr LLVMTy.i64))⟩
                  "global_array_ptr" (c.builder.nextId + 1),
                Instr.gep
                  ⟨ValueKind.ssa (c.builder.nextId + 1), LLVMTy.ptr (LLVMTy.ptr LLVMTy.i64)⟩
                  ⟨ValueKind.constInt l, c.intrinsics.i32_ty⟩
                  "global_ptr_ptr" (c.builder.nextId + 2),
                Instr.load
                  ⟨ValueKind.ssa (c.builder.nextId + 2), LLVMTy.ptr (LLVMTy.ptr LLVMTy.i64)⟩
                  "global_ptr" (c.builder.nextId + 3),
                Instr.ptrToInt
                  ⟨ValueKind.ssa (c.builder.nextId + 3), LLVMTy.ptr LLVMTy.i64⟩
                  c.intrinsics.i64_ty "global_ptr_int" (c.builder.nextId + 4),
                Instr.intToPtr
                  ⟨ValueKind.ssa (c.builder.nextId + 4), c.intrinsics.i64_ty⟩
                  (type_to_llvm_ptr c.intrinsics d.ty)
                  "global_ptr_typed" (c.builder.nextId + 5),
                Instr.load
                  ⟨ValueKind.ssa (c.builder.nextId + 5), type_to_llvm_ptr c.intrinsics d.ty⟩
                  "global_value" (c.builder.nextId + 6)]⟩) := by
  simp only [isIntTy, pointee] at hint
  simp [globalOnMiss, hres, hdesc, hmut, hint, hctx, buildStructGep, buildLoad,
    buildInBoundsGep, buildPtrToInt, buildIntToPtr, BuilderState.emit, intoPointerValue,
    intoIntValue, isPtrTy, isIntTy, pointee, fieldTy, structFields, constIntVal]

theorem globalOnMiss_import_immut (c : CtxType) (i l : Nat) (d : GlobalDesc)
    (hres : globalLocalOrImport c.info i = LocalOrImport.Import l)
    (hdesc : c.info.imported_globals[l]? = some d)
    (hmut : d.mutable = false)
    (hint : isIntTy (pointee (type_to_llvm_ptr c.intrinsics d.ty)) = true)
    (hctx : c.ctx_ptr_value.ty = LLVMTy.ptr LLVMTy.ctxStruct) :
    globalOnMiss c i =
      some (GlobalCache.Const
              ⟨ValueKind.ssa (c.builder.nextId + 6),
               pointee (type_to_llvm_ptr c.intrinsics d.ty)⟩,
            ⟨c.builder.nextId + 7,
             c.builder.instrs ++
               [Instr.structGep c.ctx_ptr_value 5 "globals_array_ptr_ptr" c.builder.nextId,
                Instr.load
                  ⟨ValueKind.ssa c.builder.nextId,
                   LLVMTy.ptr (LLVMTy.ptr (LLVMTy.ptr LLVMTy.i64))⟩
                  "global_array_ptr" (c.builder.nextId + 1),
                Instr.gep
                  ⟨ValueKind.ssa (c.builder.nextId + 1), LLVMTy.ptr (LLVMTy.ptr LLVMTy.i64)⟩
                  ⟨ValueKind.constInt l, c.intrinsics.i32_ty⟩
                  "global_ptr_ptr" (c.builder.nextId + 2),
                Instr.load
                  ⟨ValueKind.ssa (c.builder.nextId + 2), LLVMTy.ptr (LLVMTy.ptr LLVMTy.i64)⟩
                  "global_ptr" (c.builder.nextId + 3),
                Instr.ptrToInt
                  ⟨ValueKind.ssa (c.builder.nextId + 3), LLVMTy.ptr LLVMTy.i64⟩
                  c.intrinsics.i64_ty "global_ptr_int" (c.builder.nextId + 4),
                Instr.intToPtr
                  ⟨ValueKind.ssa (c.builder.nextId + 4), c.intrinsics.i64_ty⟩
                  (type_to_llvm_ptr c.intrinsics d.ty)
                  "global_ptr_typed" (c.builder.nextId + 5),
                Instr.load
                  ⟨ValueKind.ssa (c.builder.nextId + 5), type_to_llvm_ptr c.intrinsics d.ty⟩
                  "global_value" (c.builder.nextId + 6)]⟩) := by
  simp only [isIntTy, pointee] at hint
  simp [globalOnMiss, hres, hdesc, hmut, hint, hctx, buildStructGep, buildLoad,
    buildInBoundsGep, buildPtrToInt, buildIntToPtr, BuilderState.emit, intoPointerValue,
    intoIntValue, isPtrTy, isIntTy, pointee, fieldTy, structFields, constIntVal]

theorem globalOnMiss_local_immut_float (c : CtxType) (i l : Nat) (d : GlobalDesc)
    (hres : globalLocalOrImport c.info i = LocalOrImport.Local l)
    (hdesc : c.info.globals[l]? = some d)
    (hmut : d.mutable = false)
    (hint : isIntTy (pointee (type_to_llvm_ptr c.intrinsics d.ty)) = false)
    (hctx : c.ctx_ptr_value.ty = LLVMTy.ptr LLVMTy.ctxStruct) :
    globalOnMiss c i = none := by
  simp only [isIntTy, pointee] at hint
  simp [globalOnMiss, hres, hdesc, hmut, hint, hctx, buildStructGep, buildLoad,
    buildInBoundsGep, buildPtrToInt, buildIntToPtr, BuilderState.emit, intoPointerValue,
    intoIntValue, isPtrTy, isIntTy, pointee, fieldTy, structFields, constIntVal]

theorem globalOnMiss_import_immut_float (c : CtxType) (i l : Nat) (d : GlobalDesc)
    (hres : globalLocalOrImport c.info i = LocalOrImport.Import l)
    (hdesc : c.info.imported_globals[l]? = some d)
    (hmut : d.mutable = false)
    (hint : isIntTy (pointee (type_to_llvm_ptr c.intrinsics d.ty)) = false)
    (hctx : c.ctx_ptr_value.ty = LLVMTy.ptr LLVMTy.ctxStruct) :
    globalOnMiss c i = none := by
  simp only [isIntTy, pointee] at hint
  simp [globalOnMiss, hres, hdesc, hmut, hint, hctx, buildStructGep, buildLoad,
    buildInBoundsGep, buildPtrToInt, buildIntToPtr, BuilderState.emit, intoPointerValue,
    intoIntValue, isPtrTy, isIntTy, pointee, fieldTy, structFields, constIntVal]

theorem globalOnMiss_local_oob (c : CtxType) (i l : Nat)
    (hres : globalLocalOrImport c.info i = LocalOrImport.Local l)
    (hdesc : c.info.globals[l]? = none) :
    globalOnMiss c i = none := by
  simp [globalOnMiss, hres, hdesc]

theorem globalOnMiss_import_oob (c : CtxType) (i l : Nat)
    (hres : globalLocalOrImport c.info i = LocalOrImport.Import l)
    (hdesc : c.info.imported_globals[l]? = none) :
    globalOnMiss c i = none := by
  simp [globalOnMiss, hres, hdesc]

theorem memory_cache_after (c : CtxType) (i : Nat) (r : Value × Value) (c₁ : CtxType)
    (h : CtxType.memory c i = some (r, c₁)) :
    ∃ mc, assocFind c₁.cached_memories i = some mc ∧
      ∀ p q, mc = MemoryCache.Dynamic p q →
        isPtrTy (pointee p.ty) = true ∧ isIntTy (pointee q.ty) = true := by
  unfold CtxType.memory at h
  cases hfind : assocFind c.cached_memories i with
  | some mc =>
    rw [hfind] at h
    simp only at h
    refine ⟨mc, ?_, ?_⟩
    · cases mc with
      | Dynamic p q =>
        obtain ⟨hp, hq⟩ := memoryApplyCache_dynamic_inv _ _ _ _ _ h
        rw [memoryApplyCache_dynamic_eq _ _ _ hp hq] at h
        simp only [Option.some.injEq, Prod.mk.injEq] at h
        obtain ⟨-, hc⟩ := h
        rw [← hc]
        exact hfind
      | Static bp bd =>
        rw [memoryApplyCache_static] at h
        simp only [Option.some.injEq, Prod.mk.injEq] at h
        obtain ⟨-, hc⟩ := h
        rw [← hc]
        exact hfind
    · intro p q hmc
      subst hmc
      exact memoryApplyCache_dynamic_inv _ _ _ _ _ h
  | none =>
    rw [hfind] at h
    cases honmiss : memoryOnMiss c i with
    | none => rw [honmiss] at h; cases h
    | some mcb =>
      obtain ⟨mc, b⟩ := mcb
      rw [honmiss] at h
      simp only at h
      refine ⟨mc, ?_, ?_⟩
      · cases mc with
        | Dynamic p q =>
          obtain ⟨hp, hq⟩ := memoryApplyCache_dynamic_inv _ _ _ _ _ h
          rw [memoryApplyCache_dynamic_eq _ _ _ hp hq] at h
          simp only [Option.some.injEq, Prod.mk.injEq] at h
          obtain ⟨-, hc⟩ := h
          rw [← hc]
          exact assocFind_insert_self _ _ _ hfind
        | Static bp bd =>
          rw [memoryApplyCache_static] at h
          simp only [Option.some.injEq, Prod.mk.injEq] at h
          obtain ⟨-, hc⟩ := h
          rw [← hc]
          exact assocFind_insert_self _ _ _ hfind
      · intro p q hmc
        subst hmc
        exact memoryApplyCache_dynamic_inv _ _ _ _ _ h

theorem table_cache_after (c : CtxType) (i : Nat) (r : Value × Value) (c₁ : CtxType)
    (h : CtxType.table c i = some (r, c₁)) :
    ∃ tc, assocFind c₁.cached_tables i = some tc ∧
      isPtrTy (pointee tc.ptr_to_base_ptr.ty) = true ∧
      isIntTy (pointee tc.ptr_to_bounds.ty) = true := by
  unfold CtxType.table at h
  cases hfind : assocFind c.cached_tables i with
  | some tc =>
    rw [hfind] at h
    simp only at h
    obtain ⟨hp, hq⟩ := tableApplyCache_inv _ _ _ _ h
    refine ⟨tc, ?_, hp, hq⟩
    rw [tableApplyCache_eq _ _ hp hq] at h
    simp only [Option.some.injEq, Prod.mk.injEq] at h
    obtain ⟨-, hc⟩ := h
    rw [← hc]
    exact hfind
  | none =>
    rw [hfind] at h
    cases honmiss : tableOnMiss c i with
    | none => rw [honmiss] at h; cases h
    | some tcb =>
      obtain ⟨tc, b⟩ := tcb
      rw [honmiss] at h
      simp only at h
      obtain ⟨hp, hq⟩ := tableApplyCache_inv _ _ _ _ h
      refine ⟨tc, ?_, hp, hq⟩
      rw [tableApplyCache_eq _ _ hp hq] at h
      simp only [Option.some.injEq, Prod.mk.injEq] at h
      obtain ⟨-, hc⟩ := h
      rw [← hc]
      exact assocFind_insert_self _ _ _ hfind

theorem sigindex_cache_after (c : CtxType) (i : Nat) (v : Value) (c₁ : CtxType)
    (h : CtxType.dynamic_sigindex c i = some (v, c₁)) :
    assocFind c₁.cached_sigindices i = some v := by
  unfold CtxType.dynamic_sigindex at h
  cases hfind : assocFind c.cached_sigindices i with
  | some v' =>
    rw [hfind] at h
    simp only [Option.some.injEq, Prod.mk.injEq] at h
    obtain ⟨hv, hc⟩ := h
    rw [← hc, ← hv]
    exact hfind
  | none =>
    rw [hfind] at h
    simp only at h
    split at h
    · cases h
    · split at h
      · cases h
      · simp only [Option.some.injEq, Prod.mk.injEq] at h
        obtain ⟨hv, hc⟩ := h
        rw [← hc, ← hv]
        exact assocFind_insert_self _ _ _ hfind

theorem global_cache_after (c : CtxType) (i : Nat) (g : GlobalCache) (c₁ : CtxType)
    (h : CtxType.global_cache c i = some (g, c₁)) :
    assocFind c₁.cached_globals i = some g := by
  unfold CtxType.global_cache at h
  cases hfind : assocFind c.cached_globals i with
  | some g' =>
    rw [hfind] at h
    simp only [Option.some.injEq, Prod.mk.injEq] at h
    obtain ⟨hv, hc⟩ := h
    rw [← hc, ← hv]
    exact hfind
  | none =>
    rw [hfind] at h
    cases honmiss : globalOnMiss c i with
    | none => rw [honmiss] at h; cases h
    | some gb =>
      obtain ⟨g', b⟩ := gb
      rw [honmiss] at h
      simp only [Option.some.injEq, Prod.mk.injEq] at h
      obtain ⟨hv, hc⟩ := h
      rw [← hc, ← hv]
      exact assocFind_insert_self _ _ _ hfind

theorem imported_func_cache_after (c : CtxType) (i : Nat) (r : Value × Value)
    (c₁ : CtxType) (h : CtxType.imported_func c i = some (r, c₁)) :
    ∃ fc, assocFind c₁.cached_imported_functions i = some fc ∧
      r = (fc.func_ptr, fc.ctx_ptr) := by
  unfold CtxType.imported_func at h
  cases hfind : assocFind c.cached_imported_functions i with
  | some fc =>
    rw [hfind] at h
    simp only [Option.some.injEq, Prod.mk.injEq] at h
    obtain ⟨hv, hc⟩ := h
    refine ⟨fc, ?_, hv.symm⟩
    rw [← hc]
    exact hfind
  | none =>
    rw [hfind] at h
    cases honmiss : importedFuncOnMiss c i with
    | none => rw [honmiss] at h; cases h
    | some fcb =>
      obtain ⟨fc, b⟩ := fcb
      rw [honmiss] at h
      simp only [Option.some.injEq, Prod.mk.injEq] at h
      obtain ⟨hv, hc⟩ := h
      refine ⟨fc, ?_, hv.symm⟩
      rw [← hc]
      exact assocFind_insert_self _ _ _ hfind

/-- C10: `Intrinsics::ctx` unconditionally takes parameter 0 of the
supplied function value and converts it to a pointer value.  If the
function has no parameter (the `unwrap` panics) or the first parameter is
not pointer-typed (`into_pointer_value` panics), construction fails;
otherwise the accessor starts with that parameter as its context pointer
and all five caches empty. -/
theorem claim_C10_ctx_construction (intr : Intrinsics) (info : ModuleInfo)
    (b : BuilderState) (fv : FunctionValue) :
    (fv.params[0]? = none → Intrinsics.ctx intr info b fv = none) ∧
    (∀ v, fv.params[0]? = some v → isPtrTy v.ty = false →
      Intrinsics.ctx intr info b fv = none) ∧
    (∀ v, fv.params[0]? = some v → isPtrTy v.ty = true →
      Intrinsics.ctx intr info b fv =
        some { ctx_ty := intr.ctx_ty, ctx_ptr_ty := intr.ctx_ptr_ty,
               ctx_ptr_value := v, intrinsics := intr, info := info, builder := b,
               cached_memories := [], cached_tables := [], cached_sigindices := [],
               cached_globals := [], cached_imported_functions := [] }) := by
  refine ⟨?_, ?_, ?_⟩
  · intro h
    simp [Intrinsics.ctx, h]
  · intro v h hty
    simp [Intrinsics.ctx, h, intoPointerValue, hty]
  · intro v h hty
    simp [Intrinsics.ctx, h, intoPointerValue, hty]

/-- Witness for C10: constructing the accessor for a function whose first
parameter is a context pointer succeeds and yields the example state. -/
theorem claim_C10_witness :
    Intrinsics.ctx declaredIntrinsics exampleInfo emptyBuilder exampleFunction =
      some exampleCtx := by
  have h :=
    (claim_C10_ctx_construction declaredIntrinsics exampleInfo emptyBuilder
      exampleFunction).2.2
      ⟨ValueKind.param 0 0, LLVMTy.ptr LLVMTy.ctxStruct⟩ (by rfl) (by rfl)
  exact h.trans (by rfl)

/-- C9: an immutable global whose declared value type is `F32` or `F64`
makes `global_cache` panic (the loaded float is forced through
`into_int_value` before being stored in the integer-only `Const` cache
variant), while a mutable global of any type and an immutable global of
type `I32` or `I64` succeed under the same assumptions. -/
theorem claim_C9_immutable_float_global_panics (c : CtxType) (i : Nat) (d : GlobalDesc)
    (hmiss : assocFind c.cached_globals i = none)
    (hdesc : declaredGlobalDesc c.info i = some d)
    (hctx : c.ctx_ptr_value.ty = LLVMTy.ptr LLVMTy.ctxStruct)
    (hintr : c.intrinsics = declaredIntrinsics) :
    (d.mutable = false → (d.ty = WasmType.F32 ∨ d.ty = WasmType.F64) →
      CtxType.global_cache c i = none) ∧
    (d.mutable = false → (d.ty = WasmType.I32 ∨ d.ty = WasmType.I64) →
      ∃ v c₁, CtxType.global_cache c i = some (GlobalCache.Const v, c₁)) ∧
    (d.mutable = true →
      ∃ p c₁, CtxType.global_cache c i = some (GlobalCache.Mut p, c₁)) := by
  unfold declaredGlobalDesc at hdesc
  refine ⟨?_, ?_, ?_⟩
  · intro hmut hty
    have hint : isIntTy (pointee (type_to_llvm_ptr c.intrinsics d.ty)) = false := by
      rcases hty with h | h <;> rw [hintr, h] <;> rfl
    cases hres : globalLocalOrImport c.info i with
    | Local l =>
      rw [hres] at hdesc
      rw [global_miss c i hmiss,
        globalOnMiss_local_immut_float c i l d hres hdesc hmut hint hctx]
    | Import l =>
      rw [hres] at hdesc
      rw [global_miss c i hmiss,
        globalOnMiss_import_immut_float c i l d hres hdesc hmut hint hctx]
  · intro hmut hty
    have hint : isIntTy (pointee (type_to_llvm_ptr c.intrinsics d.ty)) = true := by
      rcases hty with h | h <;> rw [hintr, h] <;> rfl
    cases hres : globalLocalOrImport c.info i with
    | Local l =>
      rw [hres] at hdesc
      rw [global_miss c i hmiss,
        globalOnMiss_local_immut c i l d hres hdesc hmut hint hctx]
      exact ⟨_, _, rfl⟩
    | Import l =>
      rw [hres] at hdesc
      rw [global_miss c i hmiss,
        globalOnMiss_import_immut c i l d hres hdesc hmut hint hctx]
      exact ⟨_, _, rfl⟩
  · intro hmut
    cases hres : globalLocalOrImport c.info i with
    | Local l =>
      rw [hres] at hdesc
      rw [global_miss c i hmiss, globalOnMiss_local_mut c i l d hres hdesc hmut hctx]
      exact ⟨_, _, rfl⟩
    | Import l =>
      rw [hres] at hdesc
      rw [global_miss c i hmiss, globalOnMiss_import_mut c i l d hres hdesc hmut hctx]
      exact ⟨_, _, rfl⟩

/-- Witness for C9: in the example state, reading the immutable `F32`
global at index 1 panics, while the mutable `I32` global at index 0 and
the immutable `I64` global at index 2 succeed. -/
theorem claim_C9_witness :
    CtxType.global_cache exampleCtx 1 = none ∧
    (∃ v c₁, CtxType.global_cache exampleCtx 2 = some (GlobalCache.Const v, c₁)) ∧
    (∃ p c₁, CtxType.global_cache exampleCtx 0 = some (GlobalCache.Mut p, c₁)) := by
  refine ⟨?_, ?_, ?_⟩
  · exact (claim_C9_immutable_float_global_panics exampleCtx 1
      (GlobalDesc.mk false WasmType.F32) (by rfl) (by rfl) (by rfl) (by rfl)).1
      rfl (Or.inl rfl)
  · exact (claim_C9_immutable_float_global_panics exampleCtx 2
      (GlobalDesc.mk false WasmType.I64) (by rfl) (by rfl) (by rfl) (by rfl)).2.1
      rfl (Or.inr rfl)
  · exact (claim_C9_immutable_float_global_panics exampleCtx 0
      (GlobalDesc.mk true WasmType.I32) (by rfl) (by rfl) (by rfl) (by rfl)).2.2
      rfl

/-- C2 counterexample: the claim as frozen says that for every immutable
global, `global_cache` returns a value loaded once and cached as a
constant.  In the example state the global at index 1 is declared
immutable with value type `F32`, and `global_cache` returns no value at
all: the loaded float is forced through `into_int_value`, which panics
(modelled as `none`). -/
theorem claim_C2_counterexample :
    declaredGlobalDesc exampleCtx.info 1 = some (GlobalDesc.mk false WasmType.F32) ∧
    CtxType.global_cache exampleCtx 1 = none := ⟨rfl, rfl⟩

/-- C2 (amended): for a mutable global, `global_cache` produces a storage
pointer whose LLVM type is the typed pointer for the global's declared
value type (`type_to_llvm_ptr`), and caches it; for an immutable global of
declared value type `I32` or `I64` it returns a value loaded once at first
access and cached as a reusable constant; whenever it returns at all for
an immutable global the result is such a loaded constant, never a storage
pointer (immutable `F32`/`F64` globals panic instead of returning, see the
counterexample and C9); and a cache hit returns the cached entry
unchanged, with no new instructions. -/
theorem claim_C2_global_access (c : CtxType) (i : Nat) (d : GlobalDesc)
    (hmiss : assocFind c.cached_globals i = none)
    (hdesc : declaredGlobalDesc c.info i = some d)
    (hctx : c.ctx_ptr_value.ty = LLVMTy.ptr LLVMTy.ctxStruct) :
    (d.mutable = true →
      ∃ p c₁, CtxType.global_cache c i = some (GlobalCache.Mut p, c₁) ∧
        p.ty = type_to_llvm_ptr c.intrinsics d.ty ∧
        assocFind c₁.cached_globals i = some (GlobalCache.Mut p)) ∧
    (d.mutable = false → (d.ty = WasmType.I32 ∨ d.ty = WasmType.I64) →
      c.intrinsics = declaredIntrinsics →
      ∃ v c₁ n, CtxType.global_cache c i = some (GlobalCache.Const v, c₁) ∧
        v.kind = ValueKind.ssa n ∧
        (∃ src, Instr.load src "global_value" n ∈ c₁.builder.instrs) ∧
        assocFind c₁.cached_globals i = some (GlobalCache.Const v)) ∧
    (d.mutable = false → ∀ g c₁, CtxType.global_cache c i = some (g, c₁) →
      ∃ v n, g = GlobalCache.Const v ∧ v.kind = ValueKind.ssa n ∧
        (∃ src, Instr.load src "global_value" n ∈ c₁.builder.instrs) ∧
        assocFind c₁.cached_globals i = some (GlobalCache.Const v)) ∧
    (∀ (c₂ : CtxType) (g : GlobalCache), assocFind c₂.cached_globals i = some g →
      CtxType.global_cache c₂ i = some (g, c₂)) := by
  unfold declaredGlobalDesc at hdesc
  refine ⟨?_, ?_, ?_, fun c₂ g h => global_hit c₂ i g h⟩
  case refine_2 =>
    intro hmut hty hintr
    have hint : isIntTy (pointee (type_to_llvm_ptr c.intrinsics d.ty)) = true := by
      rcases hty with h | h <;> rw [hintr, h] <;> rfl
    cases hres : globalLocalOrImport c.info i with
    | Local l =>
      rw [hres] at hdesc
      rw [global_miss c i hmiss,
        globalOnMiss_local_immut c i l d hres hdesc hmut hint hctx]
      refine ⟨_, _, c.builder.nextId + 6, rfl, rfl,
        ⟨⟨ValueKind.ssa (c.builder.nextId + 5), type_to_llvm_ptr c.intrinsics d.ty⟩, ?_⟩, ?_⟩
      · simp
      · exact assocFind_insert_self _ _ _ hmiss
    | Import l =>
      rw [hres] at hdesc
      rw [global_miss c i hmiss,
        globalOnMiss_import_immut c i l d hres hdesc hmut hint hctx]
      refine ⟨_, _, c.builder.nextId + 6, rfl, rfl,
        ⟨⟨ValueKind.ssa (c.builder.nextId + 5), type_to_llvm_ptr c.intrinsics d.ty⟩, ?_⟩, ?_⟩
      · simp
      · exact assocFind_insert_self _ _ _ hmiss
  · intro hmut
    cases hres : globalLocalOrImport c.info i with
    | Local l =>
      rw [hres] at hdesc
      rw [global_miss c i hmiss, globalOnMiss_local_mut c i l d hres hdesc hmut hctx]
      refine ⟨_, _, rfl, rfl, ?_⟩
      exact assocFind_insert_self _ _ _ hmiss
    | Import l =>
      rw [hres] at hdesc
      rw [global_miss c i hmiss, globalOnMiss_import_mut c i l d hres hdesc hmut hctx]
      refine ⟨_, _, rfl, rfl, ?_⟩
      exact assocFind_insert_self _ _ _ hmiss
  · intro hmut g c₁ hrun
    rw [global_miss c i hmiss] at hrun
    cases hres : globalLocalOrImport c.info i with
    | Local l =>
      rw [hres] at hdesc
      cases hint : isIntTy (pointee (type_to_llvm_ptr c.intrinsics d.ty)) with
      | false =>
        rw [globalOnMiss_local_immut_float c i l d hres hdesc hmut hint hctx] at hrun
        cases hrun
      | true =>
        rw [globalOnMiss_local_immut c i l d hres hdesc hmut hint hctx] at hrun
        simp only [Option.some.injEq, Prod.mk.injEq] at hrun
        obtain ⟨hg, hc⟩ := hrun
        subst hg
        subst hc
        refine ⟨_, c.builder.nextId + 6, rfl, rfl,
          ⟨⟨ValueKind.ssa (c.builder.nextId + 5), type_to_llvm_ptr c.intrinsics d.ty⟩, ?_⟩, ?_⟩
        · simp
        · exact assocFind_insert_self _ _ _ hmiss
    | Import l =>
      rw [hres] at hdesc
      cases hint : isIntTy (pointee (type_to_llvm_ptr c.intrinsics d.ty)) with
      | false =>
        rw [globalOnMiss_import_immut_float c i l d hres hdesc hmut hint hctx] at hrun
        cases hrun
      | true =>
        rw [globalOnMiss_import_immut c i l d hres hdesc hmut hint hctx] at hrun
        simp only [Option.some.injEq, Prod.mk.injEq] at hrun
        obtain ⟨hg, hc⟩ := hrun
        subst hg
        subst hc
        refine ⟨_, c.builder.nextId + 6, rfl, rfl,
          ⟨⟨ValueKind.ssa (c.builder.nextId + 5), type_to_llvm_ptr c.intrinsics d.ty⟩, ?_⟩, ?_⟩
        · simp
        · exact assocFind_insert_self _ _ _ hmiss

/-- Witness for C2: in the example state the mutable `I32` global at
index 0 yields a storage pointer typed `i32*` and the hit clause applies
to the state after that call, while the immutable `I64` global at index 2
yields a loaded constant. -/
theorem claim_C2_witness :
    (∃ p c₁, CtxType.global_cache exampleCtx 0 = some (GlobalCache.Mut p, c₁) ∧
      p.ty = LLVMTy.ptr LLVMTy.i32 ∧
      CtxType.global_cache c₁ 0 = some (GlobalCache.Mut p, c₁)) ∧
    ∃ v c₁ n, CtxType.global_cache exampleCtx 2 = some (GlobalCache.Const v, c₁) ∧
      v.kind = ValueKind.ssa n ∧
      assocFind c₁.cached_globals 2 = some (GlobalCache.Const v) := by
  constructor
  · obtain ⟨p, c₁, hrun, hty, hfind⟩ :=
      (claim_C2_global_access exampleCtx 0 (GlobalDesc.mk true WasmType.I32)
        (by rfl) (by rfl) (by rfl)).1 rfl
    refine ⟨p, c₁, hrun, hty.trans (by rfl), ?_⟩
    exact (claim_C2_global_access exampleCtx 0 (GlobalDesc.mk true WasmType.I32)
        (by rfl) (by rfl) (by rfl)).2.2.2 c₁ (GlobalCache.Mut p) hfind
  · obtain ⟨v, c₁, n, hrun, hkind, -, hfind⟩ :=
      (claim_C2_global_access exampleCtx 2 (GlobalDesc.mk false WasmType.I64)
        (by rfl) (by rfl) (by rfl)).2.1 rfl (Or.inr rfl) rfl
    exact ⟨v, c₁, n, hrun, hkind, hfind⟩

/-- C3: on a first access, a local index reads context field 0 for
memories, 1 for tables, 2 for globals, while an imported index reads
fields 3, 4 and 5 respectively (0-based; the spec counts the same fields
1-based as 1/4, 2/5 and 3/6).  The local and imported field numbers are
distinct for every entity kind, so index 0 of the local space and index 0
of the imported space never read the same context field. -/
theorem claim_C3_disjoint_context_fields (c : CtxType) (i : Nat)
    (hctx : c.ctx_ptr_value.ty = LLVMTy.ptr LLVMTy.ctxStruct) :
    (∀ l r c₁, assocFind c.cached_memories i = none →
      memLocalOrImport c.info i = LocalOrImport.Local l →
      CtxType.memory c i = some (r, c₁) →
      c₁.builder.instrs[c.builder.instrs.length]? =
        some (Instr.structGep c.ctx_ptr_value 0 "memory_array_ptr_ptr" c.builder.nextId)) ∧
    (∀ l r c₁, assocFind c.cached_memories i = none →
      memLocalOrImport c.info i = LocalOrImport.Import l →
      CtxType.memory c i = some (r, c₁) →
      c₁.builder.instrs[c.builder.instrs.length]? =
        some (Instr.structGep c.ctx_ptr_value 3 "memory_array_ptr_ptr" c.builder.nextId)) ∧
    (∀ l r c₁, assocFind c.cached_tables i = none →
      tableLocalOrImport c.info i = LocalOrImport.Local l →
      CtxType.table c i = some (r, c₁) →
      c₁.builder.instrs[c.builder.instrs.length]? =
        some (Instr.structGep c.ctx_ptr_value 1 "table_array_ptr_ptr" c.builder.nextId)) ∧
    (∀ l r c₁, assocFind c.cached_tables i = none →
      tableLocalOrImport c.info i = LocalOrImport.Import l →
      CtxType.table c i = some (r, c₁) →
      c₁.builder.instrs[c.builder.instrs.length]? =
        some (Instr.structGep c.ctx_ptr_value 4 "table_array_ptr_ptr" c.builder.nextId)) ∧
    (∀ l g c₁, assocFind c.cached_globals i = none →
      globalLocalOrImport c.info i = LocalOrImport.Local l →
      CtxType.global_cache c i = some (g, c₁) →
      c₁.builder.instrs[c.builder.instrs.length]? =
        some (Instr.structGep c.ctx_ptr_value 2 "globals_array_ptr_ptr" c.builder.nextId)) ∧
    (∀ l g c₁, assocFind c.cached_globals i = none →
      globalLocalOrImport c.info i = LocalOrImport.Import l →
      CtxType.global_cache c i = some (g, c₁) →
      c₁.builder.instrs[c.builder.instrs.length]? =
        some (Instr.structGep c.ctx_ptr_value 5 "globals_array_ptr_ptr" c.builder.nextId)) ∧
    ((0 : Nat) ≠ 3 ∧ (1 : Nat) ≠ 4 ∧ (2 : Nat) ≠ 5) := by
  refine ⟨?_, ?_, ?_, ?_, ?_, ?_, by decide⟩
  · intro l r c₁ hmiss hres hrun
    rw [memory_miss c i hmiss] at hrun
    cases hmt : c.info.memories[l]? with
    | none =>
      rw [memoryOnMiss_local_oob c i l hres hmt] at hrun
      cases hrun
    | some mt =>
      cases mt with
      | Dynamic =>
        rw [memoryOnMiss_local_dynamic c i l hres hmt hctx] at hrun
        simp only at hrun
        rw [memoryApplyCache_dynamic_eq _ _ _ (by rfl) (by rfl)] at hrun
        simp only [Option.some.injEq, Prod.mk.injEq] at hrun
        obtain ⟨-, hc⟩ := hrun
        subst hc
        simp only [List.append_assoc, List.cons_append, List.nil_append]
        exact getElem?_append_self _ _ _
      | Static =>
        rw [memoryOnMiss_local_static c i l hres (Or.inl hmt) hctx] at hrun
        simp only at hrun
        rw [memoryApplyCache_static] at hrun
        simp only [Option.some.injEq, Prod.mk.injEq] at hrun
        obtain ⟨-, hc⟩ := hrun
        subst hc
        exact getElem?_append_self _ _ _
      | SharedStatic =>
        rw [memoryOnMiss_local_static c i l hres (Or.inr hmt) hctx] at hrun
        simp only at hrun
        rw [memoryApplyCache_static] at hrun
        simp only [Option.some.injEq, Prod.mk.injEq] at hrun
        obtain ⟨-, hc⟩ := hrun
        subst hc
        exact getElem?_append_self _ _ _
  · intro l r c₁ hmiss hres hrun
    rw [memory_miss c i hmiss] at hrun
    cases hmt : c.info.imported_memories[l]? with
    | none =>
      rw [memoryOnMiss_import_oob c i l hres hmt] at hrun
      cases hrun
    | some mt =>
      cases mt with
      | Dynamic =>
        rw [memoryOnMiss_import_dynamic c i l hres hmt hctx] at hrun
        simp only at hrun
        rw [memoryApplyCache_dynamic_eq _ _ _ (by rfl) (by rfl)] at hrun
        simp only [Option.some.injEq, Prod.mk.injEq] at hrun
        obtain ⟨-, hc⟩ := hrun
        subst hc
        simp only [List.append_assoc, List.cons_append, List.nil_append]
        exact getElem?_append_self _ _ _
      | Static =>
        rw [memoryOnMiss_import_static c i l hres (Or.inl hmt) hctx] at hrun
        simp only at hrun
        rw [memoryApplyCache_static] at hrun
        simp only [Option.some.injEq, Prod.mk.injEq] at hrun
        obtain ⟨-, hc⟩ := hrun
        subst hc
        exact getElem?_append_self _ _ _
      | SharedStatic =>
        rw [memoryOnMiss_import_static c i l hres (Or.inr hmt) hctx] at hrun
        simp only at hrun
        rw [memoryApplyCache_static] at hrun
        simp only [Option.some.injEq, Prod.mk.injEq] at hrun
        obtain ⟨-, hc⟩ := hrun
        subst hc
        exact getElem?_append_self _ _ _
  · intro l r c₁ hmiss hres hrun
    rw [table_miss c i hmiss, tableOnMiss_local c i l hres hctx] at hrun
    simp only at hrun
    rw [tableApplyCache_eq _ _ (by rfl) (by rfl)] at hrun
    simp only [Option.some.injEq, Prod.mk.injEq] at hrun
    obtain ⟨-, hc⟩ := hrun
    subst hc
    simp only [List.append_assoc, List.cons_append, List.nil_append]
    exact getElem?_append_self _ _ _
  · intro l r c₁ hmiss hres hrun
    rw [table_miss c i hmiss, tableOnMiss_import c i l hres hctx] at hrun
    simp only at hrun
    rw [tableApplyCache_eq _ _ (by rfl) (by rfl)] at hrun
    simp only [Option.some.injEq, Prod.mk.injEq] at hrun
    obtain ⟨-, hc⟩ := hrun
    subst hc
    simp only [List.append_assoc, List.cons_append, List.nil_append]
    exact getElem?_append_self _ _ _
  · intro l g c₁ hmiss hres hrun
    rw [global_miss c i hmiss] at hrun
    cases hd : c.info.globals[l]? with
    | none =>
      rw [globalOnMiss_local_oob c i l hres hd] at hrun
      cases hrun
    | some d =>
      cases hmut : d.mutable with
      | true =>
        rw [globalOnMiss_local_mut c i l d hres hd hmut hctx] at hrun
        simp only [Option.some.injEq, Prod.mk.injEq] at hrun
        obtain ⟨-, hc⟩ := hrun
        subst hc
        exact getElem?_append_self _ _ _
      | false =>
        cases hint : isIntTy (pointee (type_to_llvm_ptr c.intrinsics d.ty)) with
        | false =>
          rw [globalOnMiss_local_immut_float c i l d hres hd hmut hint hctx] at hrun
          cases hrun
        | true =>
          rw [globalOnMiss_local_immut c i l d hres hd hmut hint hctx] at hrun
          simp only [Option.some.injEq, Prod.mk.injEq] at hrun
          obtain ⟨-, hc⟩ := hrun
          subst hc
          exact getElem?_append_self _ _ _
  · intro l g c₁ hmiss hres hrun
    rw [global_miss c i hmiss] at hrun
    cases hd : c.info.imported_globals[l]? with
    | none =>
      rw [globalOnMiss_import_oob c i l hres hd] at hrun
      cases hrun
    | some d =>
      cases hmut : d.mutable with
      | true =>
        rw [globalOnMiss_import_mut c i l d hres hd hmut hctx] at hrun
        simp only [Option.some.injEq, Prod.mk.injEq] at hrun
        obtain ⟨-, hc⟩ := hrun
        subst hc
        exact getElem?_append_self _ _ _
      | false =>
        cases hint : isIntTy (pointee (type_to_llvm_ptr c.intrinsics d.ty)) with
        | false =>
          rw [globalOnMiss_import_immut_float c i l d hres hd hmut hint hctx] at hrun
          cases hrun
        | true =>
          rw [globalOnMiss_import_immut c i l d hres hd hmut hint hctx] at hrun
          simp only [Option.some.injEq, Prod.mk.injEq] at hrun
          obtain ⟨-, hc⟩ := hrun
          subst hc
          exact getElem?_append_self _ _ _

/-- Witness for C3: in the example state, the first access to local memory
index 1 reads context field 0 and the first access to imported memory
index 0 reads context field 3. -/
theorem claim_C3_witness :
    ∃ r c₁ r' c₁', CtxType.memory exampleCtx 1 = some (r, c₁) ∧
      c₁.builder.instrs[0]? =
        some (Instr.structGep exampleCtx.ctx_ptr_value 0 "memory_array_ptr_ptr" 0) ∧
      CtxType.memory exampleCtx 0 = some (r', c₁') ∧
      c₁'.builder.instrs[0]? =
        some (Instr.structGep exampleCtx.ctx_ptr_value 3 "memory_array_ptr_ptr" 0) := by
  obtain ⟨rp, hrp⟩ : ∃ rp, CtxType.memory exampleCtx 1 = some rp := ⟨_, rfl⟩
  obtain ⟨r, c₁⟩ := rp
  obtain ⟨rp', hrp'⟩ : ∃ rp', CtxType.memory exampleCtx 0 = some rp' := ⟨_, rfl⟩
  obtain ⟨r', c₁'⟩ := rp'
  refine ⟨r, c₁, r', c₁', hrp, ?_, hrp', ?_⟩
  · exact (claim_C3_disjoint_context_fields exampleCtx 1 rfl).1 0 r c₁ rfl rfl hrp
  · exact (claim_C3_disjoint_context_fields exampleCtx 0 rfl).2.1 0 r' c₁' rfl rfl hrp'

/-- C1: a memory declared `Dynamic` is cached as the two descriptor field
pointers (the struct-geps at fields 0 and 1), and every call, first or
repeated, returns values freshly loaded through those pointers; a memory
declared `Static` or `SharedStatic` loads base and bounds once at first
access, caches the loaded values, and every subsequent call returns the
cached values unchanged (with no state change at all). -/
theorem claim_C1_memory_discipline (c : CtxType) (i : Nat)
    (hctx : c.ctx_ptr_value.ty = LLVMTy.ptr LLVMTy.ctxStruct) :
    (∀ r c₁, assocFind c.cached_memories i = none →
      declaredMemTy c.info i = some MemoryType.Dynamic →
      CtxType.memory c i = some (r, c₁) →
      ∃ p q nb nd,
        assocFind c₁.cached_memories i = some (MemoryCache.Dynamic p q) ∧
        r.1.kind = ValueKind.ssa nb ∧
        r.2.kind = ValueKind.ssa nd ∧
        (∃ pre, c₁.builder.instrs =
          pre ++ [Instr.load p "base" nb, Instr.load q "bounds" nd]) ∧
        (∃ dptr np nq, p.kind = ValueKind.ssa np ∧
          Instr.structGep dptr 0 "base_ptr" np ∈ c₁.builder.instrs ∧
          q.kind = ValueKind.ssa nq ∧
          Instr.structGep dptr 1 "bounds_ptr" nq ∈ c₁.builder.instrs)) ∧
    (∀ (c₂ : CtxType) p q r c₃,
      assocFind c₂.cached_memories i = some (MemoryCache.Dynamic p q) →
      CtxType.memory c₂ i = some (r, c₃) →
      ∃ nb nd, r.1.kind = ValueKind.ssa nb ∧ r.2.kind = ValueKind.ssa nd ∧
        c₃.builder.instrs =
          c₂.builder.instrs ++ [Instr.load p "base" nb, Instr.load q "bounds" nd] ∧
        c₃.cached_memories = c₂.cached_memories) ∧
    (∀ r c₁, assocFind c.cached_memories i = none →
      (declaredMemTy c.info i = some MemoryType.Static ∨
       declaredMemTy c.info i = some MemoryType.SharedStatic) →
      CtxType.memory c i = some (r, c₁) →
      assocFind c₁.cached_memories i = some (MemoryCache.Static r.1 r.2) ∧
      ∃ p q nb nd, r.1.kind = ValueKind.ssa nb ∧ r.2.kind = ValueKind.ssa nd ∧
        Instr.load p "base" nb ∈ c₁.builder.instrs ∧
        Instr.load q "bounds" nd ∈ c₁.builder.instrs) ∧
    (∀ (c₂ : CtxType) bp bd,
      assocFind c₂.cached_memories i = some (MemoryCache.Static bp bd) →
      CtxType.memory c₂ i = some ((bp, bd), c₂)) := by
  refine ⟨?_, ?_, ?_, ?_⟩
  · intro r c₁ hmiss hdyn hrun
    unfold declaredMemTy at hdyn
    rw [memory_miss c i hmiss] at hrun
    cases hres : memLocalOrImport c.info i with
    | Local l =>
      rw [hres] at hdyn
      rw [memoryOnMiss_local_dynamic c i l hres hdyn hctx] at hrun
      simp only at hrun
      rw [memoryApplyCache_dynamic_eq _ _ _ (by rfl) (by rfl)] at hrun
      simp only [Option.some.injEq, Prod.mk.injEq] at hrun
      obtain ⟨hr, hc⟩ := hrun
      subst hr
      subst hc
      refine ⟨_, _, c.builder.nextId + 6, c.builder.nextId + 7,
        assocFind_insert_self _ _ _ hmiss, rfl, rfl, ⟨_, rfl⟩,
        ⟨ValueKind.ssa (c.builder.nextId + 3), LLVMTy.ptr LLVMTy.localMemoryStruct⟩,
        c.builder.nextId + 4, c.builder.nextId + 5, rfl, ?_, rfl, ?_⟩
      · simp
      · simp
    | Import l =>
      rw [hres] at hdyn
      rw [memoryOnMiss_import_dynamic c i l hres hdyn hctx] at hrun
      simp only at hrun
      rw [memoryApplyCache_dynamic_eq _ _ _ (by rfl) (by rfl)] at hrun
      simp only [Option.some.injEq, Prod.mk.injEq] at hrun
      obtain ⟨hr, hc⟩ := hrun
      subst hr
      subst hc
      refine ⟨_, _, c.builder.nextId + 6, c.builder.nextId + 7,
        assocFind_insert_self _ _ _ hmiss, rfl, rfl, ⟨_, rfl⟩,
        ⟨ValueKind.ssa (c.builder.nextId + 3), LLVMTy.ptr LLVMTy.localMemoryStruct⟩,
        c.builder.nextId + 4, c.builder.nextId + 5, rfl, ?_, rfl, ?_⟩
      · simp
      · simp
  · intro c₂ p q r c₃ hfind hrun
    rw [memory_hit c₂ i (MemoryCache.Dynamic p q) hfind] at hrun
    obtain ⟨hp, hq⟩ := memoryApplyCache_dynamic_inv _ _ _ _ _ hrun
    rw [memoryApplyCache_dynamic_eq _ _ _ hp hq] at hrun
    simp only [Option.some.injEq, Prod.mk.injEq] at hrun
    obtain ⟨hr, hc⟩ := hrun
    subst hr
    subst hc
    exact ⟨c₂.builder.nextId, c₂.builder.nextId + 1, rfl, rfl, rfl, rfl⟩
  · intro r c₁ hmiss hsta hrun
    unfold declaredMemTy at hsta
    rw [memory_miss c i hmiss] at hrun
    cases hres : memLocalOrImport c.info i with
    | Local l =>
      rw [hres] at hsta
      rw [memoryOnMiss_local_static c i l hres hsta hctx] at hrun
      simp only at hrun
      rw [memoryApplyCache_static] at hrun
      simp only [Option.some.injEq, Prod.mk.injEq] at hrun
      obtain ⟨hr, hc⟩ := hrun
      subst hr
      subst hc
      refine ⟨assocFind_insert_self _ _ _ hmiss,
        ⟨ValueKind.ssa (c.builder.nextId + 4), LLVMTy.ptr (LLVMTy.ptr LLVMTy.i8)⟩,
        ⟨ValueKind.ssa (c.builder.nextId + 5), LLVMTy.ptr LLVMTy.i64⟩,
        c.builder.nextId + 6, c.builder.nextId + 7, rfl, rfl, ?_, ?_⟩
      · simp
      · simp
    | Import l =>
      rw [hres] at hsta
      rw [memoryOnMiss_import_static c i l hres hsta hctx] at hrun
      simp only at hrun
      rw [memoryApplyCache_static] at hrun
      simp only [Option.some.injEq, Prod.mk.injEq] at hrun
      obtain ⟨hr, hc⟩ := hrun
      subst hr
      subst hc
      refine ⟨assocFind_insert_self _ _ _ hmiss,
        ⟨ValueKind.ssa (c.builder.nextId + 4), LLVMTy.ptr (LLVMTy.ptr LLVMTy.i8)⟩,
        ⟨ValueKind.ssa (c.builder.nextId + 5), LLVMTy.ptr LLVMTy.i64⟩,
        c.builder.nextId + 6, c.builder.nextId + 7, rfl, rfl, ?_, ?_⟩
      · simp
      · simp
  · intro c₂ bp bd hfind
    rw [memory_hit c₂ i (MemoryCache.Static bp bd) hfind, memoryApplyCache_static]

/-- Witness for C1: in the example state, the local `Dynamic` memory at
unified index 1 caches field pointers and re-loads on the repeated call,
while the imported `Static` memory at unified index 0 caches loaded values
and the repeated call returns them with no state change. -/
theorem claim_C1_witness :
    CtxType.memory exampleCtx 1 = some (memRun1.1, memRun1.2) ∧
    (∃ p q nb nd,
      assocFind memRun1.2.cached_memories 1 = some (MemoryCache.Dynamic p q) ∧
      memRun1.1.1.kind = ValueKind.ssa nb ∧
      memRun1.1.2.kind = ValueKind.ssa nd ∧
      (∃ pre, memRun1.2.builder.instrs =
        pre ++ [Instr.load p "base" nb, Instr.load q "bounds" nd]) ∧
      (∃ dptr np nq, p.kind = ValueKind.ssa np ∧
        Instr.structGep dptr 0 "base_ptr" np ∈ memRun1.2.builder.instrs ∧
        q.kind = ValueKind.ssa nq ∧
        Instr.structGep dptr 1 "bounds_ptr" nq ∈ memRun1.2.builder.instrs)) ∧
    CtxType.memory exampleCtx 0 = some (memRunS1.1, memRunS1.2) ∧
    assocFind memRunS1.2.cached_memories 0 =
      some (MemoryCache.Static memRunS1.1.1 memRunS1.1.2) ∧
    CtxType.memory memRunS1.2 0 = some ((memRunS1.1.1, memRunS1.1.2), memRunS1.2) := by
  refine ⟨rfl, ?_, rfl, ?_, ?_⟩
  · exact (claim_C1_memory_discipline exampleCtx 1 rfl).1 memRun1.1 memRun1.2
      rfl rfl rfl
  · exact ((claim_C1_memory_discipline exampleCtx 0 rfl).2.2.1 memRunS1.1 memRunS1.2
      rfl (Or.inl rfl) rfl).1
  · exact (claim_C1_memory_discipline memRunS1.2 0 rfl).2.2.2 memRunS1.2
      memRunS1.1.1 memRunS1.1.2 rfl

/-- C5: `table` always uses the double-indirection discipline.  Every
successful call, hit or miss, appends two fresh loads through the cached
field pointers and returns their results; the cache entry holds only the
two field pointers (the results of the struct-geps at fields 0 and 1 of
the descriptor), and a first access resolves local tables through context
field 1 and imported tables through context field 4 (0-based; fields 2 and
5 in the spec's 1-based numbering). -/
theorem claim_C5_table_double_indirection (c : CtxType) (i : Nat) :
    (∀ r c₁, CtxType.table c i = some (r, c₁) →
      ∃ tc nb nd, assocFind c₁.cached_tables i = some tc ∧
        r.1.kind = ValueKind.ssa nb ∧ r.2.kind = ValueKind.ssa nd ∧
        ∃ pre, c₁.builder.instrs = pre ++
          [Instr.load tc.ptr_to_base_ptr "base_ptr" nb,
           Instr.load tc.ptr_to_bounds "bounds" nd]) ∧
    (∀ l r c₁, assocFind c.cached_tables i = none →
      tableLocalOrImport c.info i = LocalOrImport.Local l →
      c.ctx_ptr_value.ty = LLVMTy.ptr LLVMTy.ctxStruct →
      CtxType.table c i = some (r, c₁) →
      c₁.builder.instrs[c.builder.instrs.length]? =
        some (Instr.structGep c.ctx_ptr_value 1 "table_array_ptr_ptr" c.builder.nextId) ∧
      ∃ tc dptr nb nd, assocFind c₁.cached_tables i = some tc ∧
        tc.ptr_to_base_ptr.kind = ValueKind.ssa nb ∧
        Instr.structGep dptr 0 "base_ptr" nb ∈ c₁.builder.instrs ∧
        tc.ptr_to_bounds.kind = ValueKind.ssa nd ∧
        Instr.structGep dptr 1 "bounds_ptr" nd ∈ c₁.builder.instrs) ∧
    (∀ l r c₁, assocFind c.cached_tables i = none →
      tableLocalOrImport c.info i = LocalOrImport.Import l →
      c.ctx_ptr_value.ty = LLVMTy.ptr LLVMTy.ctxStruct →
      CtxType.table c i = some (r, c₁) →
      c₁.builder.instrs[c.builder.instrs.length]? =
        some (Instr.structGep c.ctx_ptr_value 4 "table_array_ptr_ptr" c.builder.nextId) ∧
      ∃ tc dptr nb nd, assocFind c₁.cached_tables i = some tc ∧
        tc.ptr_to_base_ptr.kind = ValueKind.ssa nb ∧
        Instr.structGep dptr 0 "base_ptr" nb ∈ c₁.builder.instrs ∧
        tc.ptr_to_bounds.kind = ValueKind.ssa nd ∧
        Instr.structGep dptr 1 "bounds_ptr" nd ∈ c₁.builder.instrs) := by
  refine ⟨?_, ?_, ?_⟩
  · intro r c₁ hrun
    unfold CtxType.table at hrun
    cases hfind : assocFind c.cached_tables i with
    | some tc =>
      rw [hfind] at hrun
      simp only at hrun
      obtain ⟨hp, hq⟩ := tableApplyCache_inv _ _ _ _ hrun
      rw [tableApplyCache_eq _ _ hp hq] at hrun
      simp only [Option.some.injEq, Prod.mk.injEq] at hrun
      obtain ⟨hr, hc⟩ := hrun
      subst hc
      refine ⟨tc, c.builder.nextId, c.builder.nextId + 1, hfind, ?_, ?_,
        c.builder.instrs, ?_⟩
      · rw [← hr]
      · rw [← hr]
      · rfl
    | none =>
      rw [hfind] at hrun
      cases honmiss : tableOnMiss c i with
      | none => rw [honmiss] at hrun; cases hrun
      | some tcb =>
        obtain ⟨tc, b⟩ := tcb
        rw [honmiss] at hrun
        simp only at hrun
        obtain ⟨hp, hq⟩ := tableApplyCache_inv _ _ _ _ hrun
        rw [tableApplyCache_eq _ _ hp hq] at hrun
        simp only [Option.some.injEq, Prod.mk.injEq] at hrun
        obtain ⟨hr, hc⟩ := hrun
        subst hc
        refine ⟨tc, b.nextId, b.nextId + 1, assocFind_insert_self _ _ _ hfind, ?_, ?_,
          b.instrs, ?_⟩
        · rw [← hr]
        · rw [← hr]
        · rfl
  · intro l r c₁ hmiss hres hctx hrun
    rw [table_miss c i hmiss, tableOnMiss_local c i l hres hctx] at hrun
    simp only at hrun
    rw [tableApplyCache_eq _ _ (by rfl) (by rfl)] at hrun
    simp only [Option.some.injEq, Prod.mk.injEq] at hrun
    obtain ⟨-, hc⟩ := hrun
    subst hc
    constructor
    · simp only [List.append_assoc, List.cons_append, List.nil_append]
      exact getElem?_append_self _ _ _
    · refine ⟨_, ⟨ValueKind.ssa (c.builder.nextId + 3), LLVMTy.ptr LLVMTy.localMemoryStruct⟩,
        c.builder.nextId + 4, c.builder.nextId + 5,
        assocFind_insert_self _ _ _ hmiss, rfl, ?_, rfl, ?_⟩
      · simp
      · simp
  · intro l r c₁ hmiss hres hctx hrun
    rw [table_miss c i hmiss, tableOnMiss_import c i l hres hctx] at hrun
    simp only at hrun
    rw [tableApplyCache_eq _ _ (by rfl) (by rfl)] at hrun
    simp only [Option.some.injEq, Prod.mk.injEq] at hrun
    obtain ⟨-, hc⟩ := hrun
    subst hc
    constructor
    · simp only [List.append_assoc, List.cons_append, List.nil_append]
      exact getElem?_append_self _ _ _
    · refine ⟨_, ⟨ValueKind.ssa (c.builder.nextId + 3), LLVMTy.ptr LLVMTy.localMemoryStruct⟩,
        c.builder.nextId + 4, c.builder.nextId + 5,
        assocFind_insert_self _ _ _ hmiss, rfl, ?_, rfl, ?_⟩
      · simp
      · simp

/-- Witness for C5: the first and second accesses to the imported table at
index 0 of the example state both return freshly loaded values through the
cached field pointers. -/
theorem claim_C5_witness :
    CtxType.table exampleCtx 0 = some (tableRun1.1, tableRun1.2) ∧
    (∃ tc nb nd, assocFind tableRun1.2.cached_tables 0 = some tc ∧
      tableRun1.1.1.kind = ValueKind.ssa nb ∧ tableRun1.1.2.kind = ValueKind.ssa nd ∧
      ∃ pre, tableRun1.2.builder.instrs = pre ++
        [Instr.load tc.ptr_to_base_ptr "base_ptr" nb,
         Instr.load tc.ptr_to_bounds "bounds" nd]) ∧
    CtxType.table tableRun1.2 0 = some (tableRun2.1, tableRun2.2) ∧
    (∃ tc nb nd, assocFind tableRun2.2.cached_tables 0 = some tc ∧
      tableRun2.1.1.kind = ValueKind.ssa nb ∧ tableRun2.1.2.kind = ValueKind.ssa nd ∧
      ∃ pre, tableRun2.2.builder.instrs = pre ++
        [Instr.load tc.ptr_to_base_ptr "base_ptr" nb,
         Instr.load tc.ptr_to_bounds "bounds" nd]) := by
  refine ⟨rfl, ?_, rfl, ?_⟩
  · exact (claim_C5_table_double_indirection exampleCtx 0).1 tableRun1.1 tableRun1.2 rfl
  · exact (claim_C5_table_double_indirection tableRun1.2 0).1 tableRun2.1 tableRun2.2 rfl

/-- C4: calling any accessor twice with the same index derives the access
path at most once.  After a successful call the cache holds the entry; a
second call finds it, leaves the cache unchanged (entries are inserted at
most once per index), and emits at most re-loads through the cached
pointers — never geps, so the access path is not re-derived.  For the
value-caching accessors (`dynamic_sigindex`, `global_cache`,
`imported_func`) the second call returns the identical result and leaves
the whole state untouched. -/
theorem claim_C4_accessor_idempotence (c : CtxType) (i : Nat) :
    (∀ r c₁, CtxType.memory c i = some (r, c₁) →
      ∃ r₂ c₂, CtxType.memory c₁ i = some (r₂, c₂) ∧
        c₂.cached_memories = c₁.cached_memories ∧
        ∃ extra, c₂.builder.instrs = c₁.builder.instrs ++ extra ∧
          ∀ ins ∈ extra, ∃ pv nm n, ins = Instr.load pv nm n) ∧
    (∀ r c₁, CtxType.table c i = some (r, c₁) →
      ∃ r₂ c₂, CtxType.table c₁ i = some (r₂, c₂) ∧
        c₂.cached_tables = c₁.cached_tables ∧
        ∃ extra, c₂.builder.instrs = c₁.builder.instrs ++ extra ∧
          ∀ ins ∈ extra, ∃ pv nm n, ins = Instr.load pv nm n) ∧
    (∀ v c₁, CtxType.dynamic_sigindex c i = some (v, c₁) →
      CtxType.dynamic_sigindex c₁ i = some (v, c₁)) ∧
    (∀ g c₁, CtxType.global_cache c i = some (g, c₁) →
      CtxType.global_cache c₁ i = some (g, c₁)) ∧
    (∀ r c₁, CtxType.imported_func c i = some (r, c₁) →
      CtxType.imported_func c₁ i = some (r, c₁)) := by
  refine ⟨?_, ?_, ?_, ?_, ?_⟩
  · intro r c₁ hrun
    obtain ⟨mc, hfind, hdyn⟩ := memory_cache_after c i r c₁ hrun
    cases mc with
    | Static bp bd =>
      refine ⟨(bp, bd), c₁, ?_, rfl, [], by simp, by simp⟩
      rw [memory_hit c₁ i (MemoryCache.Static bp bd) hfind, memoryApplyCache_static]
    | Dynamic p q =>
      obtain ⟨hp, hq⟩ := hdyn p q rfl
      refine ⟨(⟨ValueKind.ssa c₁.builder.nextId, pointee p.ty⟩,
          ⟨ValueKind.ssa (c₁.builder.nextId + 1), pointee q.ty⟩),
        { c₁ with builder :=
            ⟨c₁.builder.nextId + 2,
             c₁.builder.instrs ++
               [Instr.load p "base" c₁.builder.nextId,
                Instr.load q "bounds" (c₁.builder.nextId + 1)]⟩ },
        ?_, rfl, [Instr.load p "base" c₁.builder.nextId,
        Instr.load q "bounds" (c₁.builder.nextId + 1)], rfl, ?_⟩
      · rw [memory_hit c₁ i (MemoryCache.Dynamic p q) hfind,
          memoryApplyCache_dynamic_eq _ _ _ hp hq]
      · intro ins hins
        simp only [List.mem_cons, List.not_mem_nil, or_false] at hins
        rcases hins with h | h
        · exact ⟨_, _, _, h⟩
        · exact ⟨_, _, _, h⟩
  · intro r c₁ hrun
    obtain ⟨tc, hfind, hp, hq⟩ := table_cache_after c i r c₁ hrun
    refine ⟨(⟨ValueKind.ssa c₁.builder.nextId, pointee tc.ptr_to_base_ptr.ty⟩,
        ⟨ValueKind.ssa (c₁.builder.nextId + 1), pointee tc.ptr_to_bounds.ty⟩),
      { c₁ with builder :=
          ⟨c₁.builder.nextId + 2,
           c₁.builder.instrs ++
             [Instr.load tc.ptr_to_base_ptr "base_ptr" c₁.builder.nextId,
              Instr.load tc.ptr_to_bounds "bounds" (c₁.builder.nextId + 1)]⟩ },
      ?_, rfl, [Instr.load tc.ptr_to_base_ptr "base_ptr" c₁.builder.nextId,
      Instr.load tc.ptr_to_bounds "bounds" (c₁.builder.nextId + 1)], rfl, ?_⟩
    · rw [table_hit c₁ i tc hfind, tableApplyCache_eq _ _ hp hq]
    · intro ins hins
      simp only [List.mem_cons, List.not_mem_nil, or_false] at hins
      rcases hins with h | h
      · exact ⟨_, _, _, h⟩
      · exact ⟨_, _, _, h⟩
  · intro v c₁ hrun
    exact sigindex_hit c₁ i v (sigindex_cache_after c i v c₁ hrun)
  · intro g c₁ hrun
    exact global_hit c₁ i g (global_cache_after c i g c₁ hrun)
  · intro r c₁ hrun
    obtain ⟨fc, hfind, hr⟩ := imported_func_cache_after c i r c₁ hrun
    rw [hr]
    exact imported_func_hit c₁ i fc hfind

/-- Witness for C4: a successful first access to the local `Dynamic`
memory at unified index 1 of the example state makes the second access hit
the cache, keep the memory cache unchanged, and emit only loads. -/
theorem claim_C4_witness :
    CtxType.memory exampleCtx 1 = some (memRun1.1, memRun1.2) ∧
    ∃ r₂ c₂, CtxType.memory memRun1.2 1 = some (r₂, c₂) ∧
      c₂.cached_memories = memRun1.2.cached_memories ∧
      ∃ extra, c₂.builder.instrs = memRun1.2.builder.instrs ++ extra ∧
        ∀ ins ∈ extra, ∃ pv nm n, ins = Instr.load pv nm n := by
  exact ⟨rfl, (claim_C4_accessor_idempotence exampleCtx 1).1 memRun1.1 memRun1.2 rfl⟩

/-- C6 (amended): a single `Intrinsics::declare` call on an empty
compilation unit registers exactly 12 `vm.` runtime memory entry points,
exactly 2 control symbols (the branch-likelihood hint `llvm.expect.i1` and
the trap `llvm.trap`), exactly 24 numeric-primitive symbols (the claim
said 22), and no other function symbols (38 in total, every symbol falling
in one of the three families). -/
theorem claim_C6_declare_manifest :
    (declaredModule.filter fun d => isVmName d.name).length = 12 ∧
    (declaredModule.filter fun d => isControlName d.name).length = 2 ∧
    (declaredModule.filter fun d => isNumericPrimitiveName d.name).length = 24 ∧
    declaredModule.length = 38 ∧
    (declaredModule.all fun d =>
      isVmName d.name || isControlName d.name || isNumericPrimitiveName d.name) = true := by
  refine ⟨by decide, by decide, by decide, by decide, by decide⟩

/-- C6 counterexample: the claim says `declare` registers exactly 22
numeric-primitive symbols, but it registers 24 (3 integer operations and 9
floating-point operations, each at 2 widths). -/
theorem claim_C6_counterexample :
    ¬ (declaredModule.filter fun d => isNumericPrimitiveName d.name).length = 22 := by
  decide

/-- C7: every registered symbol lives in the `llvm.` or `vm.` namespace;
every numeric primitive has the `namespace.op.width` shape with a
recognized width; and the `vm.` runtime entry points are exactly the
2 x 3 x 2 cross product of memory grow/size names (each of the five-part
`vm.resource.operation.discipline.locality` shape), with no duplicates. -/
theorem claim_C7_naming_convention :
    (declaredModule.all fun d => isLlvmName d.name || isVmName d.name) = true ∧
    (declaredModule.all fun d =>
      !(isNumericPrimitiveName d.name) || hasNumericForm d.name) = true ∧
    (declaredModule.all fun d => !(isVmName d.name) || hasVmEntryForm d.name) = true ∧
    (declaredModule.filter fun d => isVmName d.name).map FnDecl.name = memoryEntryNames ∧
    memoryEntryNames.length = 12 ∧ memoryEntryNames.Nodup := by
  refine ⟨by decide, by decide, by decide, by decide, by decide, by decide⟩

/-- C8: each of the six `vm.memory.grow.*` entry points takes (context
pointer, i32 memory index, i32 delta) and returns i32; each of the six
`vm.memory.size.*` entry points takes (context pointer, i32 memory index)
and returns i32. -/
theorem claim_C8_memory_entry_signatures :
    declaredIntrinsics.memory_grow_dynamic_local =
      ⟨"vm.memory.grow.dynamic.local", LLVMTy.i32,
        [LLVMTy.ptr LLVMTy.ctxStruct, LLVMTy.i32, LLVMTy.i32]⟩ ∧
    declaredIntrinsics.memory_grow_static_local =
      ⟨"vm.memory.grow.static.local", LLVMTy.i32,
        [LLVMTy.ptr LLVMTy.ctxStruct, LLVMTy.i32, LLVMTy.i32]⟩ ∧
    declaredIntrinsics.memory_grow_shared_local =
      ⟨"vm.memory.grow.shared.local", LLVMTy.i32,
        [LLVMTy.ptr LLVMTy.ctxStruct, LLVMTy.i32, LLVMTy.i32]⟩ ∧
    declaredIntrinsics.memory_grow_dynamic_import =
      ⟨"vm.memory.grow.dynamic.import", LLVMTy.i32,
        [LLVMTy.ptr LLVMTy.ctxStruct, LLVMTy.i32, LLVMTy.i32]⟩ ∧
    declaredIntrinsics.memory_grow_static_import =
      ⟨"vm.memory.grow.static.import", LLVMTy.i32,
        [LLVMTy.ptr LLVMTy.ctxStruct, LLVMTy.i32, LLVMTy.i32]⟩ ∧
    declaredIntrinsics.memory_grow_shared_import =
      ⟨"vm.memory.grow.shared.import", LLVMTy.i32,
        [LLVMTy.ptr LLVMTy.ctxStruct, LLVMTy.i32, LLVMTy.i32]⟩ ∧
    declaredIntrinsics.memory_size_dynamic_local =
      ⟨"vm.memory.size.dynamic.local", LLVMTy.i32,
        [LLVMTy.ptr LLVMTy.ctxStruct, LLVMTy.i32]⟩ ∧
    declaredIntrinsics.memory_size_static_local =
      ⟨"vm.memory.size.static.local", LLVMTy.i32,
        [LLVMTy.ptr LLVMTy.ctxStruct, LLVMTy.i32]⟩ ∧
    declaredIntrinsics.memory_size_shared_local =
      ⟨"vm.memory.size.shared.local", LLVMTy.i32,
        [LLVMTy.ptr LLVMTy.ctxStruct, LLVMTy.i32]⟩ ∧
    declaredIntrinsics.memory_size_dynamic_import =
      ⟨"vm.memory.size.dynamic.import", LLVMTy.i32,
        [LLVMTy.ptr LLVMTy.ctxStruct, LLVMTy.i32]⟩ ∧
    declaredIntrinsics.memory_size_static_import =
      ⟨"vm.memory.size.static.import", LLVMTy.i32,
        [LLVMTy.ptr LLVMTy.ctxStruct, LLVMTy.i32]⟩ ∧
    declaredIntrinsics.memory_size_shared_import =
      ⟨"vm.memory.size.shared.import", LLVMTy.i32,
        [LLVMTy.ptr LLVMTy.ctxStruct, LLVMTy.i32]⟩ := by
  refine ⟨rfl, rfl, rfl, rfl, rfl, rfl, rfl, rfl, rfl, rfl, rfl, rfl⟩

end WasmerLLVM
